import Mathlib

/-!
Verification of the template-rendering and recipient-resolution core of the
Data Collection OFT generator (src/app6.py).

Python strings are modelled as `List Char` (`Str`).  Each definition below is a
shallow embedding of the correspondingly named Python function; the Jinja2
environment (`Environment(autoescape=select_autoescape(enabled_extensions=(),
default=True))`, i.e. autoescape on for string templates and the default
`Undefined` which renders as the empty string) is embedded as `renderChars`.
-/

set_option maxRecDepth 2000

namespace DCGen

/-- Python strings, modelled as lists of characters. -/
abbrev Str := List Char

/-- Python whitespace test (`str.strip` / `\s`), restricted to Unicode
whitespace as in `Char.isWhitespace`. -/
def isSpace (c : Char) : Bool := c.isWhitespace

/-- Python `s.lstrip()`. -/
def lstrip (s : Str) : Str := s.dropWhile isSpace

/-- Python `s.rstrip()`. -/
def rstrip (s : Str) : Str := (s.reverse.dropWhile isSpace).reverse

/-- Python `s.strip()`. -/
def strip (s : Str) : Str := rstrip (lstrip s)

/-- Python `s.lower()` (ASCII case folding, as used on e-mail addresses). -/
def lower (s : Str) : Str := s.map Char.toLower

/-- Python `s.replace(",", ";")` — a single-character replace is a `map`. -/
def replaceCommaSemi (s : Str) : Str := s.map (fun c => if c = ',' then ';' else c)

/-- Python `s.split(sep)` for a one-character separator: `"".split(";") = [""]`,
and a separator occurrence always starts a new (possibly empty) part. -/
def splitChar (sep : Char) : Str → List Str
  | [] => [[]]
  | c :: cs =>
    if c = sep then [] :: splitChar sep cs
    else
      match splitChar sep cs with
      | [] => [[c]]
      | p :: ps => (c :: p) :: ps

/-- Python `" ".join(l)` / `"; ".join(l)` with an explicit separator string. -/
def joinWith (sep : Str) : List Str → Str
  | [] => []
  | [a] => a
  | a :: b :: rest => a ++ sep ++ joinWith sep (b :: rest)

/-- `_split_recipients` (app6.py lines 54–56): replace `,` by `;`, split on
`;`, strip each part, keep the non-empty ones. -/
def _split_recipients (s : Str) : List Str :=
  ((splitChar ';' (replaceCommaSemi s)).map strip).filter (· ≠ [])

/-- The `seen`-set loop of `build_cc`: keep a token unless its lowercase form
was already seen; the set of seen keys is modelled by a list of keys. -/
def dedupLowerAux (seen : List Str) : List Str → List Str
  | [] => []
  | p :: ps =>
    if lower p ∈ seen then dedupLowerAux seen ps
    else p :: dedupLowerAux (lower p :: seen) ps

/-- The token list produced by `build_cc` (app6.py lines 58–71) before the
final join: all chunks split and concatenated, then de-duplicated on the
full lowercased token, first occurrence kept. -/
def buildCCList (chunks : List Str) : List Str :=
  dedupLowerAux [] (chunks.flatMap _split_recipients)

/-- `build_cc` (app6.py lines 58–71): normalize and merge semicolon lists,
de-duplicate case-insensitively on the whole token, join with `"; "`. -/
def build_cc (chunks : List Str) : Str :=
  joinWith "; ".data (buildCCList chunks)

/-- `dedup_against_to` (app6.py lines 73–76): drop every CC token whose full
lowercased text is the full lowercased text of a To token; join with `"; "`.
(The key is the whole token — `strip_angle_display` is *not* applied here.) -/
def dedup_against_to (to_ cc_ : Str) : Str :=
  let toSet := (_split_recipients to_).map lower
  joinWith "; ".data ((_split_recipients cc_).filter (fun x => decide (lower x ∉ toSet)))

/-- `strip_angle_display` (app6.py lines 78–87): if the stripped value
contains both `<` and `>`, take the text after the first `<` up to the next
`>` and strip it, falling back to the whole value when that is empty. -/
def strip_angle_display (s0 : Str) : Str :=
  let s := strip s0
  if s.contains '<' && s.contains '>' then
    let inside := strip ((s.dropWhile (· ≠ '<')).drop 1 |>.takeWhile (· ≠ '>'))
    if inside = [] then s else inside
  else s

/-- Accumulator pass for Python `s.split()` (split on whitespace runs,
dropping empty fields); `cur` holds the current word reversed. -/
def wordsAux (cur : Str) : Str → List Str
  | [] => if cur = [] then [] else [cur.reverse]
  | c :: cs =>
    if isSpace c then
      if cur = [] then wordsAux [] cs else cur.reverse :: wordsAux [] cs
    else wordsAux (c :: cur) cs

/-- Python `s.split()` with no separator argument. -/
def wordsOf (s : Str) : List Str := wordsAux [] s

/-- Python `w.capitalize()`: first character upper-cased, rest lower-cased. -/
def capitalize : Str → Str
  | [] => []
  | c :: cs => Char.toUpper c :: lower cs

/-- `derive_display_name_from_email` (app6.py lines 89–93). -/
def derive_display_name_from_email (email0 : Str) : Str :=
  let email := strip_angle_display email0
  let loc := email.takeWhile (· ≠ '@')
  let pretty := strip (loc.map (fun c => if c = '.' ∨ c = '_' ∨ c = '-' then ' ' else c))
  let joined := joinWith " ".data ((wordsOf pretty).map capitalize)
  if joined = [] then "POC".data else joined

/-- The characters replaced by `-` in `sanitize_filename`. -/
def badFileChars : Str := "<>:\"/\\|?*\n\r\t".data

/-- `sanitize_filename` (app6.py lines 48–52): replace each illegal character
by `-` (the characters are pairwise distinct and `-` is not one of them, so
the sequential replaces are one map), then `" ".join(name.split()).strip()`. -/
def sanitize_filename (name : Str) : Str :=
  strip (joinWith " ".data (wordsOf (name.map (fun c => if c ∈ badFileChars then '-' else c))))

/-- Character class `[^@\s]` of `EMAIL_RE`. -/
def plainEmailChar (c : Char) : Bool := c ≠ '@' && !isSpace c

/-- `EMAIL_RE = ^[^@\s]+@[^@\s]+\.[^@\s]+$` (app6.py line 95).  A string
matches iff it is `A ++ "@" ++ M` with `A` non-empty over `[^@\s]`, and `M`
non-empty over `[^@\s]` containing a `.` that is neither its first nor its
last character (so `M = B ++ "." ++ C` with `B C` non-empty).  Since the
class excludes `@`, the string has exactly one `@` and `A`/`M` are the parts
around it. -/
def emailShape (s : Str) : Bool :=
  match splitChar '@' s with
  | [a, m] =>
    a ≠ [] && a.all plainEmailChar && m ≠ [] && m.all plainEmailChar
      && ((m.drop 1).dropLast).contains '.'
  | _ => false

/-- `looks_like_email` (app6.py lines 97–99). -/
def looks_like_email (s : Str) : Bool := emailShape (strip_angle_display s)

/-- The `bad` list of `assert_recipients_or_warn` (app6.py lines 101–117):
tokens other than the literal `//` whose angle-stripped core fails the
e-mail grammar.  (Both branches of the Python `if` test
`looks_like_email(core)` with `core = strip_angle_display(r)`.) -/
def invalid_recipients (recips : Str) : List Str :=
  (_split_recipients recips).filter
    (fun r => r ≠ "//".data && !looks_like_email (strip_angle_display r))

/-- `assert_recipients_or_warn`'s boolean outcome: `True` iff no invalid
token (the `st.warning` display of the bad tokens is UI-only). -/
def assert_recipients_ok (recips : Str) : Bool :=
  (invalid_recipients recips).isEmpty

/-- markupsafe's `escape` on one character, as applied by Jinja autoescape:
`&`, `<`, `>`, `"`, `'` become entities. -/
def escapeChar (c : Char) : Str :=
  if c = '&' then "&amp;".data
  else if c = '<' then "&lt;".data
  else if c = '>' then "&gt;".data
  else if c = '"' then "&#34;".data
  else if c = '\x27' then "&#39;".data
  else [c]

/-- markupsafe's `escape` on a string. -/
def escapeHTML (s : Str) : Str := s.flatMap escapeChar

/-- Context lookup.  The contexts built by the app have pairwise-distinct
keys, so first-match lookup coincides with Python dict lookup. -/
def lookupCtx (name : Str) : List (Str × Str) → Option Str
  | [] => none
  | (k, v) :: rest => if k = name then some v else lookupCtx name rest

/-- Scan for the first `}}`; returns the text before it and the text after.
`none` when the input has no `}}` (an unclosed Jinja variable). -/
def findClose : Str → Option (Str × Str)
  | [] => none
  | [_] => none
  | c :: c2 :: rest =>
    if c = '\x7d' ∧ c2 = '\x7d' then some ([], rest)
    else (findClose (c2 :: rest)).map (fun p => (c :: p.1, p.2))

/-- Recursion worker for `renderChars`, structurally recursive on a fuel
bound (any fuel at least the input length gives the renderer's value; the
fuel-exhaustion branch is unreachable then, see `renderA_fuel`). -/
def renderA (ctx : List (Str × Str)) : Nat → Str → Option Str
  | _, [] => some []
  | _, [c] => some [c]
  | 0, _ => none
  | fuel + 1, c :: c2 :: rest =>
    if c = '\x7b' ∧ c2 = '\x7b' then
      match findClose rest with
      | none => none
      | some (inside, rest') =>
        let v :=
          match lookupCtx (strip inside) ctx with
          | some v => escapeHTML v
          | none => []
        (renderA ctx fuel rest').map (fun t => v ++ t)
    else
      (renderA ctx fuel (c2 :: rest)).map (fun t => c :: t)

/-- Shallow embedding of `render_text` (app6.py lines 41–43) for the
plain-text/variable templates this app uses: a Jinja template over the
environment `Environment(autoescape=select_autoescape(enabled_extensions=(),
default=True))`.  `\x7b\x7b name \x7d\x7d` substitutes the HTML-escaped context value;
a name absent from the context is the default Jinja `Undefined`, which
renders as the empty string; an unclosed `\x7b\x7b` is a template error (`none`,
standing for the `TemplateSyntaxError` raised by Jinja); everything else is
literal text. -/
def renderChars (ctx : List (Str × Str)) (s : Str) : Option Str :=
  renderA ctx s.length s

/-- Worker for `renderRaw`, the renderer with autoescape off. -/
def renderRawA (ctx : List (Str × Str)) : Nat → Str → Option Str
  | _, [] => some []
  | _, [c] => some [c]
  | 0, _ => none
  | fuel + 1, c :: c2 :: rest =>
    if c = '\x7b' ∧ c2 = '\x7b' then
      match findClose rest with
      | none => none
      | some (inside, rest') =>
        let v :=
          match lookupCtx (strip inside) ctx with
          | some v => v
          | none => []
        (renderRawA ctx fuel rest').map (fun t => v ++ t)
    else
      (renderRawA ctx fuel (c2 :: rest)).map (fun t => c :: t)

/-- The same renderer with Jinja autoescape turned off: substituted values
are inserted verbatim.  Used only to state that `renderChars` escapes every
substituted value at its insertion point. -/
def renderRaw (ctx : List (Str × Str)) (s : Str) : Option Str :=
  renderRawA ctx s.length s

/-- Worker for `templateVars`. -/
def templateVarsA : Nat → Str → List Str
  | _, [] => []
  | _, [_] => []
  | 0, _ => []
  | fuel + 1, c :: c2 :: rest =>
    if c = '\x7b' ∧ c2 = '\x7b' then
      match findClose rest with
      | none => []
      | some (inside, rest') => strip inside :: templateVarsA fuel rest'
    else templateVarsA fuel (c2 :: rest)

/-- The names a template substitutes: the (stripped) contents of each
`\x7b\x7b … \x7d\x7d` occurrence, in order. -/
def templateVars (s : Str) : List Str :=
  templateVarsA s.length s

/-- A Jinja variable placeholder `\x7b\x7b name \x7d\x7d` (with `name` carrying its
surrounding spaces).  Template bodies below are written as concatenations of
literal chunks and `mkVar` placeholders; the concatenation is exactly the
source's template text. -/
def mkVar (name : Str) : Str := "\x7b\x7b".data ++ name ++ "\x7d\x7d".data

/-- A literal chunk is renderer-safe when it contains no adjacent `\x7b\x7b` pair
and does not end in `\x7b` (so no variable start can form inside it or across
its right boundary).  Single braces — as in the broken non-ER&D placeholders
`\x7b \x7b case_manager_name \x7d \x7d` — are fine: Jinja treats them as text. -/
def litOK : Str → Bool
  | [] => true
  | [c] => c ≠ '\x7b'
  | c :: c2 :: rest => !(c = '\x7b' && c2 = '\x7b') && litOK (c2 :: rest)

/-- Literal text chunk 1 of `BODY_SEBASTIAN_ERD`. -/
def sebC1 : Str := "\n<p>Hi ".data

/-- Literal text chunk 2 of `BODY_SEBASTIAN_ERD`. -/
def sebC2 : Str := ",</p>\n\n<p>Hope you are doing well!</p>\n\n<p>\nI am the practice manager for Engineering and R&amp;D and I wanted to reach out regarding your work with <strong>".data

/-- Literal text chunk 3 of `BODY_SEBASTIAN_ERD`. -/
def sebC3 : Str := "</strong> (<strong>".data

/-- Literal text chunk 4 of `BODY_SEBASTIAN_ERD`. -/
def sebC4 : Str := "</strong>). From what we heard your case also included an ER&amp;D component and we would like to get your support with PI practice\u201a\u00c4\u00f4s efforts in building prop".data

/-- Literal text chunk 5 of `BODY_SEBASTIAN_ERD`. -/
def sebC5 : Str := "rietary ER&amp;D benchmarking databases.\n</p>\n\n<p>\nThe benchmarking team (in cc) will be reaching out with specifics. The team can help address any queries and ".data

/-- Literal text chunk 6 of `BODY_SEBASTIAN_ERD`. -/
def sebC6 : Str := "will work with you to gather data for our Benchmarking database. If you feel that you do not have visibility for the asked information or access to client data ".data

/-- Literal text chunk 7 of `BODY_SEBASTIAN_ERD`. -/
def sebC7 : Str := "on ER&amp;D, please let us know.\nFor your reference, in case there are any concerns regarding sharing sensitive client data or confidentiality, we have worked e".data

/-- Literal text chunk 8 of `BODY_SEBASTIAN_ERD`. -/
def sebC8 : Str := "xtensively with Legal, and the standard Bain MSA includes language that allows us to collect and store data for benchmarking purposes. Moreover, our Benchmarkin".data

/-- Literal text chunk 9 of `BODY_SEBASTIAN_ERD`. -/
def sebC9 : Str := "g CoE team follows a very rigorous \u201a\u00c4\u00fadouble blind\u201a\u00c4\u00f9 process that disguises and protects any client data collected. BCoE also has a \u201a\u00c4\u00fado not contact\u201a\u00c4\u00f9 list t".data

/-- Literal text chunk 10 of `BODY_SEBASTIAN_ERD`. -/
def sebC10 : Str := "hat tells us explicitly which clients we should not collect data from, per their contracts.\n</p>\n\n<p>\nAdditionally, we would also like to highlight potential be".data

/-- Literal text chunk 11 of `BODY_SEBASTIAN_ERD`. -/
def sebC11 : Str := "nchmarking resources, please refer to the Guide to ER&amp;D Benchmarking Sources, for more details on the R&amp;D benchmarks available with our Benchmarking CoE".data

/-- Literal text chunk 12 of `BODY_SEBASTIAN_ERD`. -/
def sebC12 : Str := " team. We also have a wide array of benchmarks across functions like Support functions, Supply Chain and ZBB from proprietary databases (curated by Bain experts".data

/-- Literal text chunk 13 of `BODY_SEBASTIAN_ERD`. -/
def sebC13 : Str := ") and other third party vendors (APQC, Gartner, IFMA, ALM, Stella, MPI etc.) available with us.\n</p>\n\n<p>Thanks in advance!</p>\n\n<p>Best,<br/>Sebastian</p>\n".data

/-- Literal text chunk 1 of `BODY_POC_ERD`. -/
def pocBC1 : Str := "\n<p>Hi ".data

/-- Literal text chunk 2 of `BODY_POC_ERD`. -/
def pocBC2 : Str := ",</p>\n\n<p>Hope you\x27re doing well!</p>\n\n<p>\nI work with the Benchmarking team and following up on e-mail below, we would need your support in completing the <a h".data

/-- Literal text chunk 3 of `BODY_POC_ERD`. -/
def pocBC3 : Str := "ref=\"https://benchmarkingsurvey.bain.com/\">linked survey</a> based on the ER&amp;D work you are doing with <strong>".data

/-- Literal text chunk 4 of `BODY_POC_ERD`. -/
def pocBC4 : Str := "</strong>(<strong>".data

/-- Literal text chunk 5 of `BODY_POC_ERD`. -/
def pocBC5 : Str := "</strong>). To kick-start this data collection, we have two asks from you at this point:\n</p>\n\n<ul>\n<li>Identify a case team member for this task who can work w".data

/-- Literal text chunk 6 of `BODY_POC_ERD`. -/
def pocBC6 : Str := "ith us in filling the linked survey, and we\u201a\u00c4\u00f4ll provide the access link from our end</li>\n<li>Set up a brief call to align on what kind of data would be availa".data

/-- Literal text chunk 7 of `BODY_POC_ERD`. -/
def pocBC7 : Str := "ble and how we can best work together on this. I can directly run through your calendar or work with your EA and find a convenient slot. Let me know what works ".data

/-- Literal text chunk 8 of `BODY_POC_ERD`. -/
def pocBC8 : Str := "best for you</li>\n</ul>\n\n<p>Thank you,<br/>".data

/-- Literal text chunk 9 of `BODY_POC_ERD`. -/
def pocBC9 : Str := "</p>\n\n<p><em>More details on the survey</em></p>\n\n<p><strong>Content:</strong> A high level view of the survey: You\x27ll find instructions on the first tab and de".data

/-- Literal text chunk 10 of `BODY_POC_ERD`. -/
def pocBC10 : Str := "finitions throughout the survey as you click to enter data. We are collecting data across the following sections:</p>\n<ul>\n<li>\u201a\u00c4\u00f2Demographics\x27 tab: Descriptors".data

/-- Literal text chunk 11 of `BODY_POC_ERD`. -/
def pocBC11 : Str := " of the company or business unit in scope for Bain case \u201a\u00c4\u00ec this spans basic demographics, financials, ownership, organization, and strategic/competitive positi".data

/-- Literal text chunk 12 of `BODY_POC_ERD`. -/
def pocBC12 : Str := "on</li>\n<li>\u201a\u00c4\u00f2Overall ER&amp;D Survey\u201a\u00c4\u00f4 tab: Data on overall R&amp;D cost, organization layers, time spent, and performance</li>\n<li>\u201a\u00c4\u00f2ER&amp;D SW Survey\u201a\u00c4\u00f4 ".data

/-- Literal text chunk 13 of `BODY_POC_ERD`. -/
def pocBC13 : Str := "tab: More focused on software-specific metrics such as developer time, code, pull requests, development efficiency, and more. Please feel free to skip this tab ".data

/-- Literal text chunk 14 of `BODY_POC_ERD`. -/
def pocBC14 : Str := "if it\x27s not relevant.</li>\n</ul>\n\n<p>Important points to note are that we are aiming to get following separate sets of data:</p>\n<ul>\n<li>\u201a\u00c4\u00f2As-Is\x27 data: Client".data

/-- Literal text chunk 15 of `BODY_POC_ERD`. -/
def pocBC15 : Str := " data at the start of the Bain work (would also include any estimates that the Bain case team has made which reflect the As-Is state of the client, and can be u".data

/-- Literal text chunk 16 of `BODY_POC_ERD`. -/
def pocBC16 : Str := "sed for Benchmarking purposes)</li>\n<li>\u201a\u00c4\u00f2To-Be\u201a\u00c4\u00f4 data: Committed targets/recommendations, ideally the values which have been agreed to by the client based on".data

/-- Literal text chunk 17 of `BODY_POC_ERD`. -/
def pocBC17 : Str := " Bain work</li>\n</ul>\n".data

/-- Literal text chunk 1 of `BODY_ASEEM_ERD`. -/
def asmC1 : Str := "\n<p>Hi ".data

/-- Literal text chunk 2 of `BODY_ASEEM_ERD`. -/
def asmC2 : Str := ",</p>\n\n<p>Hope you\x27re doing well.</p>\n\n<p>\nI lead the ER&amp;D benchmarking team at BCN and following up on the below, it would be great if you could connect us".data

/-- Literal text chunk 3 of `BODY_ASEEM_ERD`. -/
def asmC3 : Str := " to a team member who can help us in filling the attached ER&amp;D data survey for <strong>".data

/-- Literal text chunk 4 of `BODY_ASEEM_ERD`. -/
def asmC4 : Str := "</strong>.\n</p>\n\n<p>\nIf in case you\u201a\u00c4\u00f4re tied up with case work, please feel free to let us know if we should get back at a later date.\n</p>\n\n<p>Looking forward".data

/-- Literal text chunk 5 of `BODY_ASEEM_ERD`. -/
def asmC5 : Str := " to hearing from you.</p>\n\n<p>Best,<br/>Aseem</p>\n".data

/-- Literal text chunk 1 of `_lipsum_initial`. -/
def lipInitC1 : Str := "<p>Hi \x7b \x7b case_manager_name \x7d \x7d,</p>\n\n<p>Hope you are doing well!</p>\n\n<p>\nI am writing regarding your work with <strong>".data

/-- Literal text chunk 2 of `_lipsum_initial`. -/
def lipInitC2 : Str := "</strong> (<strong>".data

/-- Literal text chunk 3 of `_lipsum_initial`. -/
def lipInitC3 : Str := "</strong>) and our ongoing Data Collection initiative for <strong>".data

/-- Literal text chunk 4 of `_lipsum_initial`. -/
def lipInitC4 : Str := "</strong>. Lorem ipsum dolor sit amet, consectetur adipiscing elit, sed do eiusmod tempor incididunt ut labore et dolore magna aliqua.\n</p>\n\n<p>\nThe benchmarkin".data

/-- Literal text chunk 5 of `_lipsum_initial`. -/
def lipInitC5 : Str := "g team (in cc) will follow up with specifics and support throughout the process. In case of any concerns about data handling or confidentiality, please note we ".data

/-- Literal text chunk 6 of `_lipsum_initial`. -/
def lipInitC6 : Str := "follow a rigorous process to protect client information. Lorem ipsum dolor sit amet, consectetur adipiscing elit.\n</p>\n\n<p>Thanks in advance!</p>\n\n<p>Best,<br/>".data

/-- Literal text chunk 7 of `_lipsum_initial`. -/
def lipInitC7 : Str := "Sebastian</p>".data

/-- Literal text chunk 1 of `_lipsum_poc`. -/
def lipPocC1 : Str := "<p>Hi \x7b \x7b case_manager_name \x7d \x7d,</p>\n\n<p>Hope you\x27re doing well!</p>\n\n<p>\nFollowing up on the note below, we would appreciate your support in completing the <a ".data

/-- Literal text chunk 2 of `_lipsum_poc`. -/
def lipPocC2 : Str := "href=\"#\">linked survey</a> for <strong>".data

/-- Literal text chunk 3 of `_lipsum_poc`. -/
def lipPocC3 : Str := "</strong> based on the work with <strong>".data

/-- Literal text chunk 4 of `_lipsum_poc`. -/
def lipPocC4 : Str := "</strong> (<strong>".data

/-- Literal text chunk 5 of `_lipsum_poc`. -/
def lipPocC5 : Str := "</strong>). To kick-start, we have two quick asks:\n</p>\n\n<ul>\n<li>Identify a team member who can work with us to fill the survey; we will share access from our ".data

/-- Literal text chunk 6 of `_lipsum_poc`. -/
def lipPocC6 : Str := "end.</li>\n<li>Set up a brief call to align on available data and the best way to collaborate. Lorem ipsum dolor sit amet.</li>\n</ul>\n\n<p>Thank you,<br/>".data

/-- Literal text chunk 7 of `_lipsum_poc`. -/
def lipPocC7 : Str := "</p>\n\n<p><em>More details on the survey</em></p>\n\n<p><strong>Content:</strong> Lorem ipsum dolor sit amet, consectetur adipiscing elit. Sections include basic d".data

/-- Literal text chunk 8 of `_lipsum_poc`. -/
def lipPocC8 : Str := "emographics, process measures, and performance indicators relevant to ".data

/-- Literal text chunk 9 of `_lipsum_poc`. -/
def lipPocC9 : Str := ".</p>\n<ul>\n<li>\u201a\u00c4\u00f2Demographics\u201a\u00c4\u00f4 tab</li>\n<li>\u201a\u00c4\u00f2Overall ".data

/-- Literal text chunk 10 of `_lipsum_poc`. -/
def lipPocC10 : Str := " Survey\u201a\u00c4\u00f4 tab</li>\n<li>\u201a\u00c4\u00f2".data

/-- Literal text chunk 11 of `_lipsum_poc`. -/
def lipPocC11 : Str := " Advanced\u201a\u00c4\u00f4 tab (optional)</li>\n</ul>\n\n<p>We aim to collect both \u201a\u00c4\u00f2As-Is\u201a\u00c4\u00f4 and \u201a\u00c4\u00f2To-Be\u201a\u00c4\u00f4 data. Lorem ipsum dolor sit amet.</p>".data

/-- Literal text chunk 1 of `_lipsum_escalation`. -/
def lipEscC1 : Str := "<p>Hi \x7b \x7b case_manager_name \x7d \x7d,</p>\n\n<p>Hope you\x27re doing well.</p>\n\n<p>\nFollowing up on the below, it would be great if you could connect us to a team member ".data

/-- Literal text chunk 2 of `_lipsum_escalation`. -/
def lipEscC2 : Str := "who can help fill the attached data survey for <strong>".data

/-- Literal text chunk 3 of `_lipsum_escalation`. -/
def lipEscC3 : Str := "</strong> (".data

/-- Literal text chunk 4 of `_lipsum_escalation`. -/
def lipEscC4 : Str := "). Lorem ipsum dolor sit amet, consectetur adipiscing elit.\n</p>\n\n<p>\nIf you\x27re tied up with case work, happy to reconnect at a later date. Looking forward to h".data

/-- Literal text chunk 5 of `_lipsum_escalation`. -/
def lipEscC5 : Str := "earing from you.\n</p>\n\n<p>Best,<br/>Aseem</p>".data

/-- Subject template `SUBJECT_ERD` (app6.py line 156). -/
def SUBJECT_ERD : Str := "ER&D Data Collection - \x7b\x7b case_code \x7d\x7d (\x7b\x7b client_name \x7d\x7d)".data

/-- Body template `BODY_SEBASTIAN_ERD` (app6.py lines 158-179), written as the concatenation of its literal chunks and `\x7b\x7b ... \x7d\x7d` placeholders. -/
def BODY_SEBASTIAN_ERD : Str :=
  sebC1
    ++ mkVar " case_manager_name ".data
    ++ sebC2
    ++ mkVar " client_name ".data
    ++ sebC3
    ++ mkVar " case_code ".data
    ++ sebC4
    ++ sebC5
    ++ sebC6
    ++ sebC7
    ++ sebC8
    ++ sebC9
    ++ sebC10
    ++ sebC11
    ++ sebC12
    ++ sebC13

/-- Body template `BODY_POC_ERD` (app6.py lines 181-211), chunked the same way. -/
def BODY_POC_ERD : Str :=
  pocBC1
    ++ mkVar " case_manager_name ".data
    ++ pocBC2
    ++ pocBC3
    ++ mkVar " client_name ".data
    ++ pocBC4
    ++ mkVar " case_code ".data
    ++ pocBC5
    ++ pocBC6
    ++ pocBC7
    ++ pocBC8
    ++ mkVar " poc_display_name ".data
    ++ pocBC9
    ++ pocBC10
    ++ pocBC11
    ++ pocBC12
    ++ pocBC13
    ++ pocBC14
    ++ pocBC15
    ++ pocBC16
    ++ pocBC17

/-- Body template `BODY_ASEEM_ERD` (app6.py lines 213-229), chunked the same way. -/
def BODY_ASEEM_ERD : Str :=
  asmC1
    ++ mkVar " case_manager_name ".data
    ++ asmC2
    ++ asmC3
    ++ mkVar " client_name ".data
    ++ asmC4
    ++ asmC5

/-- The value of the Python f-string of `_lipsum_initial` (app6.py lines 232-249) after f-string evaluation: each doubled brace is one literal brace, so the intended placeholder around `case_manager_name` comes out as the literal text `\x7b \x7b case_manager_name \x7d \x7d` (part of a literal chunk here), while the quadrupled braces around `client_name` and `case_code` come out as working placeholders (`mkVar`); the trailing `.strip()` is applied. -/
def _lipsum_initial (func_label : Str) : Str :=
  lipInitC1
    ++ mkVar " client_name ".data
    ++ lipInitC2
    ++ mkVar " case_code ".data
    ++ lipInitC3
    ++ func_label
    ++ lipInitC4
    ++ lipInitC5
    ++ lipInitC6
    ++ lipInitC7

/-- The value of the Python f-string of `_lipsum_poc` (app6.py lines 251-278) after f-string evaluation (same brace behaviour as `_lipsum_initial`). -/
def _lipsum_poc (func_label : Str) : Str :=
  lipPocC1
    ++ lipPocC2
    ++ func_label
    ++ lipPocC3
    ++ mkVar " client_name ".data
    ++ lipPocC4
    ++ mkVar " case_code ".data
    ++ lipPocC5
    ++ lipPocC6
    ++ mkVar " poc_display_name ".data
    ++ lipPocC7
    ++ lipPocC8
    ++ func_label
    ++ lipPocC9
    ++ func_label
    ++ lipPocC10
    ++ func_label
    ++ lipPocC11

/-- The value of the Python f-string of `_lipsum_escalation` (app6.py lines 280-295) after f-string evaluation (same brace behaviour as `_lipsum_initial`). -/
def _lipsum_escalation (func_label : Str) : Str :=
  lipEscC1
    ++ lipEscC2
    ++ mkVar " client_name ".data
    ++ lipEscC3
    ++ func_label
    ++ lipEscC4
    ++ lipEscC5

/-- The value substituted for a variable reference: the HTML-escaped context
value, or the empty string for a name absent from the context (Jinja's
default `Undefined` renders as `""`). -/
def ctxVal (ctx : List (Str × Str)) (name : Str) : Str :=
  match lookupCtx name ctx with
  | some v => escapeHTML v
  | none => []

/-- The closed category set `FUNCTIONS` (app6.py line 298). -/
def FUNCTIONS : List Str :=
  ["ER&D".data, "Supply Chain".data, "Procurement".data, "Manufacturing".data]

/-- The dict returned by `get_templates_for_function`. -/
structure TemplateSet where
  subject : Str
  sebastian : Str
  poc : Str
  aseem : Str
  subject_label : Str
deriving DecidableEq

/-- `get_templates_for_function` (app6.py lines 300–319).  For `"ER&D"` the
approved templates; otherwise the lipsum bodies and the subject f-string
`f"\x7bfunc_name\x7d Data Collection - \x7b\x7b \x7b\x7b case_code \x7d\x7d \x7d\x7d (\x7b\x7b \x7b\x7b client_name \x7d\x7d \x7d\x7d)"`,
whose doubled braces evaluate to single literal braces. -/
def get_templates_for_function (func_name : Str) : TemplateSet :=
  if func_name = "ER&D".data then
    { subject := SUBJECT_ERD
      sebastian := BODY_SEBASTIAN_ERD
      poc := BODY_POC_ERD
      aseem := BODY_ASEEM_ERD
      subject_label := "ER&D".data }
  else
    { subject := func_name ++ " Data Collection - \x7b \x7b case_code \x7d \x7d (\x7b \x7b client_name \x7d \x7d)".data
      sebastian := _lipsum_initial func_name
      poc := _lipsum_poc func_name
      aseem := _lipsum_escalation func_name
      subject_label := func_name }

/-- One spreadsheet row as consumed by the generate loop (app6.py lines
448–458): all values are strings (`dtype=str`, absent optional columns are
filled with `""`). -/
structure Row where
  client_name : Str
  case_code : Str
  case_manager_name : Str
  /-- the `to` spreadsheet column (named after the Python local `to_`) -/
  to_ : Str
  team_lead_email : Str
  POC_name : Str
  POC_display_name : Str
  extra_cc : Str
deriving DecidableEq

/-- Per-row terminal outcome, as appended to the status log (the
`"Row \x7bi+1\x7d: …"` formatting is display-only). -/
inductive RowStatus where
  | ok (base : Str)
  | skipped (reason : Str)
  | failed (msg : Str)
deriving DecidableEq

/-- Opaque artifact bytes produced by `create_oft_bytes_reuse`. -/
abbrev Bytes := List UInt8

/-- Outcome oracle for the external Outlook call `create_oft_bytes_reuse`
(row index, stage number 1/2/3 ↦ bytes or the raised exception's message).
For a fixed batch the subject, recipients and body passed to Outlook are
functions of the row index and stage, so this indexing is fully general. -/
abbrev Gen := Nat → Nat → Except Str Bytes

/-- The render context dict built per row (app6.py lines 464–470), in the
dict's insertion order. -/
def ctxOf (client code cm poc_disp today : Str) : List (Str × Str) :=
  [("client_name".data, client), ("case_code".data, code),
   ("case_manager_name".data, cm), ("poc_display_name".data, poc_disp),
   ("today".data, today)]

/-- The context for a row: fields stripped, `poc_display_name` falling back
to `derive_display_name_from_email(POC_name)` when blank (app6.py 456–457). -/
def rowCtx (today : Str) (r : Row) : List (Str × Str) :=
  ctxOf (strip r.client_name) (strip r.case_code) (strip r.case_manager_name)
    (if strip r.POC_display_name = [] then derive_display_name_from_email (strip r.POC_name)
     else strip r.POC_display_name)
    today

/-- Stage-1 CC after merge and dedup-against-To (app6.py lines 476, 480). -/
def ccStage1 (r : Row) : Str :=
  dedup_against_to (strip r.to_)
    (build_cc [strip r.team_lead_email, strip r.POC_name, strip r.extra_cc,
               "ERDDBTeam.Global@Bain.com".data])

/-- Stage-2 CC after merge and dedup-against-To (app6.py lines 477, 481). -/
def ccStage2 (r : Row) : Str :=
  dedup_against_to (strip r.to_)
    (build_cc ["ERDDBTeam.Global@Bain.com".data, strip r.team_lead_email,
               "Sebastian.Sambale@Bain.com".data])

/-- Stage-3 CC after merge and dedup-against-To (app6.py lines 478, 482). -/
def ccStage3 (r : Row) : Str :=
  dedup_against_to (strip r.to_)
    (build_cc ["Sebastian.Sambale@Bain.com".data, strip r.team_lead_email,
               "ERDDBTeam.Global@Bain.com".data, strip r.POC_name])

/-- The combined recipient validation of app6.py lines 484–488. -/
def rowRecipientsOk (r : Row) : Bool :=
  assert_recipients_ok (strip r.to_) && assert_recipients_ok (ccStage1 r)
    && assert_recipients_ok (ccStage2 r) && assert_recipients_ok (ccStage3 r)

/-- The sanitized base filename `sanitize_filename(f"\x7bclient\x7d - \x7bcode\x7d")`. -/
def rowBase (r : Row) : Str :=
  sanitize_filename (strip r.client_name ++ " - ".data ++ strip r.case_code)

/-- Archive path of the stage-1 artifact (app6.py line 496). -/
def stage1Path (r : Row) : Str := "1_Sebastian_Initial/".data ++ rowBase r ++ ".oft".data

/-- Archive path of the stage-2 artifact (app6.py line 501). -/
def stage2Path (r : Row) : Str := "2_POC_Follow_Up/".data ++ rowBase r ++ ".oft".data

/-- Archive path of the stage-3 artifact (app6.py line 506). -/
def stage3Path (r : Row) : Str := "3_Aseem_Escalation/".data ++ rowBase r ++ ".oft".data

/-- One iteration of the generate loop (app6.py lines 448–510) for row `r`
at index `i`: returns the row's status and the `(path, bytes)` zip entries
it wrote.  Mirrors the source's order: missing-field check; subject render;
CC build/dedup; validation; then per stage body render, Outlook call, zip
write.  A failed render (`none`, Jinja raising) or a failing Outlook call is
caught by the per-row `except` and recorded as FAILED, keeping the entries
already written. -/
def processRow (tpls : TemplateSet) (today : Str) (gen : Gen) (i : Nat) (r : Row) :
    RowStatus × List (Str × Bytes) :=
  let client := strip r.client_name
  let code := strip r.case_code
  let to_ := strip r.to_
  if client = [] ∨ code = [] ∨ to_ = [] then
    (.skipped "missing client/code/to".data, [])
  else
    let ctx := rowCtx today r
    match renderChars ctx tpls.subject with
    | none => (.failed "template error".data, [])
    | some _subject =>
      if !rowRecipientsOk r then (.skipped "invalid recipients".data, [])
      else
        match renderChars ctx tpls.sebastian with
        | none => (.failed "template error".data, [])
        | some _body1 =>
          match gen i 1 with
          | .error e => (.failed e, [])
          | .ok b1 =>
            match renderChars ctx tpls.poc with
            | none => (.failed "template error".data, [(stage1Path r, b1)])
            | some _body2 =>
              match gen i 2 with
              | .error e => (.failed e, [(stage1Path r, b1)])
              | .ok b2 =>
                match renderChars ctx tpls.aseem with
                | none => (.failed "template error".data, [(stage1Path r, b1), (stage2Path r, b2)])
                | some _body3 =>
                  match gen i 3 with
                  | .error e => (.failed e, [(stage1Path r, b1), (stage2Path r, b2)])
                  | .ok b3 =>
                    (.ok (rowBase r),
                     [(stage1Path r, b1), (stage2Path r, b2), (stage3Path r, b3)])

/-- The generate loop over the remaining rows starting at index `i`,
accumulating the status log and the zip entries in order. -/
def processBatchAux (tpls : TemplateSet) (today : Str) (gen : Gen) :
    Nat → List Row → List RowStatus × List (Str × Bytes)
  | _, [] => ([], [])
  | i, r :: rs =>
    ((processRow tpls today gen i r).1 :: (processBatchAux tpls today gen (i + 1) rs).1,
     (processRow tpls today gen i r).2 ++ (processBatchAux tpls today gen (i + 1) rs).2)

/-- The whole generate loop (app6.py lines 447–510): the status log and the
zip archive contents for a batch of rows. -/
def processBatch (tpls : TemplateSet) (today : Str) (gen : Gen) (rows : List Row) :
    List RowStatus × List (Str × Bytes) :=
  processBatchAux tpls today gen 0 rows

/-- Example row of spec §8 / claim C4 (all other columns empty). -/
def rowAcme : Row :=
  ⟨"Acme".data, "C100".data, [], "cm@acme.com".data, "tl@acme.com".data,
   "poc@acme.com".data, [], []⟩

/-- An Outlook oracle that always succeeds with empty bytes. -/
def genOK : Gen := fun _ _ => .ok []

/-- An Outlook oracle whose call fails exactly at stage 2. -/
def genFail2 : Gen := fun _ k => if k == 2 then .error "boom".data else .ok []

/-- An Outlook oracle whose call fails exactly at stage 3. -/
def genFail3 : Gen := fun _ k => if k == 3 then .error "late".data else .ok []

/-- A minimal template set (no placeholders) for batch-level witnesses. -/
def tinyTpls : TemplateSet := ⟨"s".data, "b1".data, "b2".data, "b3".data, "X".data⟩

/-- A row with an empty `to` column. -/
def rowNoTo : Row := ⟨"Acme".data, "C100".data, [], [], [], [], [], []⟩

/-- A small fully valid row. -/
def rowTiny : Row := ⟨"A".data, "C".data, [], "a@b.co".data, [], [], [], []⟩

/-- A row whose `team_lead_email` is not an e-mail shape, so every resolved
stage CC contains an invalid entry while To itself is valid. -/
def rowBadRecipient : Row :=
  ⟨"A".data, "C".data, [], "a@b.co".data, "notanemail".data, [], [], []⟩

/-- Example source list for claim C5's witness. -/
def ccChunksEx : List Str :=
  ["A <a@x.com>; b@y.com".data, "a <a@x.com>, A <A@X.COM>".data]

theorem findClose_length : ∀ {s a b : Str}, findClose s = some (a, b) → b.length < s.length
  | [], _, _, h => by simp [findClose] at h
  | [_], _, _, h => by simp [findClose] at h
  | c :: c2 :: rest, a, b, h => by
    rw [findClose] at h
    split at h
    · cases h; simp only [List.length_cons]; omega
    · rw [Option.map_eq_some'] at h
      obtain ⟨p, hp, heq⟩ := h
      cases heq
      have := findClose_length (s := c2 :: rest) hp
      simp only [List.length_cons] at this ⊢
      omega

theorem sebC1_ok : litOK sebC1 = true := by decide

theorem sebC2_ok : litOK sebC2 = true := by decide

theorem sebC3_ok : litOK sebC3 = true := by decide

theorem sebC4_ok : litOK sebC4 = true := by decide

theorem sebC5_ok : litOK sebC5 = true := by decide

theorem sebC6_ok : litOK sebC6 = true := by decide

theorem sebC7_ok : litOK sebC7 = true := by decide

theorem sebC8_ok : litOK sebC8 = true := by decide

theorem sebC9_ok : litOK sebC9 = true := by decide

theorem sebC10_ok : litOK sebC10 = true := by decide

theorem sebC11_ok : litOK sebC11 = true := by decide

theorem sebC12_ok : litOK sebC12 = true := by decide

theorem sebC13_ok : litOK sebC13 = true := by decide

theorem pocBC1_ok : litOK pocBC1 = true := by decide

theorem pocBC2_ok : litOK pocBC2 = true := by decide

theorem pocBC3_ok : litOK pocBC3 = true := by decide

theorem pocBC4_ok : litOK pocBC4 = true := by decide

theorem pocBC5_ok : litOK pocBC5 = true := by decide

theorem pocBC6_ok : litOK pocBC6 = true := by decide

theorem pocBC7_ok : litOK pocBC7 = true := by decide

theorem pocBC8_ok : litOK pocBC8 = true := by decide

theorem pocBC9_ok : litOK pocBC9 = true := by decide

theorem pocBC10_ok : litOK pocBC10 = true := by decide

theorem pocBC11_ok : litOK pocBC11 = true := by decide

theorem pocBC12_ok : litOK pocBC12 = true := by decide

theorem pocBC13_ok : litOK pocBC13 = true := by decide

theorem pocBC14_ok : litOK pocBC14 = true := by decide

theorem pocBC15_ok : litOK pocBC15 = true := by decide

theorem pocBC16_ok : litOK pocBC16 = true := by decide

theorem pocBC17_ok : litOK pocBC17 = true := by decide

theorem asmC1_ok : litOK asmC1 = true := by decide

theorem asmC2_ok : litOK asmC2 = true := by decide

theorem asmC3_ok : litOK asmC3 = true := by decide

theorem asmC4_ok : litOK asmC4 = true := by decide

theorem asmC5_ok : litOK asmC5 = true := by decide

theorem lipInitC1_ok : litOK lipInitC1 = true := by decide

theorem lipInitC2_ok : litOK lipInitC2 = true := by decide

theorem lipInitC3_ok : litOK lipInitC3 = true := by decide

theorem lipInitC4_ok : litOK lipInitC4 = true := by decide

theorem lipInitC5_ok : litOK lipInitC5 = true := by decide

theorem lipInitC6_ok : litOK lipInitC6 = true := by decide

theorem lipInitC7_ok : litOK lipInitC7 = true := by decide

theorem lipPocC1_ok : litOK lipPocC1 = true := by decide

theorem lipPocC2_ok : litOK lipPocC2 = true := by decide

theorem lipPocC3_ok : litOK lipPocC3 = true := by decide

theorem lipPocC4_ok : litOK lipPocC4 = true := by decide

theorem lipPocC5_ok : litOK lipPocC5 = true := by decide

theorem lipPocC6_ok : litOK lipPocC6 = true := by decide

theorem lipPocC7_ok : litOK lipPocC7 = true := by decide

theorem lipPocC8_ok : litOK lipPocC8 = true := by decide

theorem lipPocC9_ok : litOK lipPocC9 = true := by decide

theorem lipPocC10_ok : litOK lipPocC10 = true := by decide

theorem lipPocC11_ok : litOK lipPocC11 = true := by decide

theorem lipEscC1_ok : litOK lipEscC1 = true := by decide

theorem lipEscC2_ok : litOK lipEscC2 = true := by decide

theorem lipEscC3_ok : litOK lipEscC3 = true := by decide

theorem lipEscC4_ok : litOK lipEscC4 = true := by decide

theorem lipEscC5_ok : litOK lipEscC5 = true := by decide

theorem renderA_fuel (ctx : List (Str × Str)) :
    ∀ f g s, s.length ≤ f → s.length ≤ g → renderA ctx f s = renderA ctx g s := by
  intro f
  induction f with
  | zero =>
    intro g s hf _
    have hs : s = [] := List.eq_nil_of_length_eq_zero (Nat.le_zero.mp hf)
    subst hs
    simp [renderA]
  | succ f ih =>
    intro g s hf hg
    match s with
    | [] => simp [renderA]
    | [c] => simp [renderA]
    | c :: c2 :: rest =>
      match g with
      | 0 => simp [List.length_cons] at hg
      | g + 1 =>
        simp only [renderA]
        by_cases hbr : c = '\x7b' ∧ c2 = '\x7b'
        · rw [if_pos hbr, if_pos hbr]
          cases hfc : findClose rest with
          | none => rfl
          | some p =>
            obtain ⟨inside, rest'⟩ := p
            have hlen := findClose_length hfc
            simp only [List.length_cons] at hf hg
            dsimp only
            rw [ih g rest' (by omega) (by omega)]
        · rw [if_neg hbr, if_neg hbr]
          simp only [List.length_cons] at hf hg
          rw [ih g (c2 :: rest) (by simp; omega) (by simp; omega)]

theorem renderA_eq_renderChars (ctx : List (Str × Str)) {f : Nat} {s : Str}
    (h : s.length ≤ f) : renderA ctx f s = renderChars ctx s :=
  renderA_fuel ctx f s.length s h (Nat.le_refl _)

theorem litOK_tail {c : Char} {a : Str} (h : litOK (c :: a) = true) : litOK a = true := by
  cases a with
  | nil => simp [litOK]
  | cons c2 rest =>
    simp only [litOK, Bool.and_eq_true] at h
    exact h.2

theorem litOK_head_pair {c c2 : Char} {a b rest2 : Str} (h : litOK (c :: a) = true)
    (hab : a ++ b = c2 :: rest2) : ¬(c = '\x7b' ∧ c2 = '\x7b') := by
  cases a with
  | nil =>
    simp only [litOK, decide_eq_true_eq] at h
    exact fun hc => h hc.1
  | cons x xs =>
    have hx : x = c2 := by
      have : x :: (xs ++ b) = c2 :: rest2 := by simpa using hab
      exact (List.cons.injEq _ _ _ _ ▸ this).1
    subst hx
    simp only [litOK, Bool.and_eq_true, Bool.not_eq_eq_eq_not, Bool.not_true,
      Bool.and_eq_false_iff, decide_eq_false_iff_not] at h
    rcases h.1 with h1 | h1 <;> exact fun hc => h1 (by simp [hc.1, hc.2])

/-- Rendering a template that starts with a renderer-safe literal chunk
copies the chunk and renders the rest. -/
theorem renderChars_append_lit (ctx : List (Str × Str)) :
    ∀ a b : Str, litOK a = true →
      renderChars ctx (a ++ b) = (renderChars ctx b).map (fun t => a ++ t) := by
  intro a
  induction a with
  | nil =>
    intro b _
    simp
  | cons c a' ih =>
    intro b h
    cases hab : a' ++ b with
    | nil =>
      obtain ⟨ha', hb⟩ := List.append_eq_nil.mp hab
      subst ha'; subst hb
      simp [renderChars, renderA]
    | cons c2 rest2 =>
      have hpair := litOK_head_pair h hab
      have : (c :: a') ++ b = c :: c2 :: rest2 := by simp [hab]
      rw [this]
      show renderA ctx (c :: c2 :: rest2).length (c :: c2 :: rest2) = _
      simp only [List.length_cons]
      rw [renderA, if_neg hpair]
      have hfuel : renderA ctx (rest2.length + 1) (c2 :: rest2)
          = renderChars ctx (c2 :: rest2) := by
        exact renderA_eq_renderChars ctx (by simp)
      rw [hfuel, ← hab, ih b (litOK_tail h)]
      cases renderChars ctx b <;> simp

/-- A renderer-safe literal chunk renders to itself. -/
theorem renderChars_lit (ctx : List (Str × Str)) (a : Str) (h : litOK a = true) :
    renderChars ctx a = some a := by
  have := renderChars_append_lit ctx a [] h
  simpa [renderChars, renderA] using this

theorem findClose_no_rbrace :
    ∀ name b : Str, '\x7d' ∉ name →
      findClose (name ++ '\x7d' :: '\x7d' :: b) = some (name, b) := by
  intro name
  induction name with
  | nil => intro b _; simp [findClose]
  | cons c name' ih =>
    intro b h
    have hc : c ≠ '\x7d' := fun hc => h (hc ▸ List.mem_cons_self c name')
    have h' : '\x7d' ∉ name' := fun hm => h (List.mem_cons_of_mem c hm)
    cases name' with
    | nil =>
      simp only [List.nil_append, List.cons_append]
      rw [findClose, if_neg (by simp [hc])]
      rw [show findClose ('\x7d' :: '\x7d' :: b) = some ([], b) from by
        rw [findClose, if_pos ⟨rfl, rfl⟩]]
      rfl
    | cons c2 rest =>
      simp only [List.cons_append]
      rw [findClose, if_neg (by simp [hc])]
      have := ih b h'
      simp only [List.cons_append] at this
      rw [this]
      rfl

/-- Rendering a template that starts with a `\x7b\x7b name \x7d\x7d` placeholder
substitutes `ctxVal` for it and renders the rest. -/
theorem renderChars_mkvar (ctx : List (Str × Str)) (name b : Str) (h : '\x7d' ∉ name) :
    renderChars ctx (mkVar name ++ b)
      = (renderChars ctx b).map (fun t => ctxVal ctx (strip name) ++ t) := by
  have hshape : mkVar name ++ b = '\x7b' :: '\x7b' :: (name ++ '\x7d' :: '\x7d' :: b) := by
    simp [mkVar]
  rw [hshape]
  show renderA ctx ('\x7b' :: '\x7b' :: (name ++ '\x7d' :: '\x7d' :: b)).length _ = _
  have hlen : ('\x7b' :: '\x7b' :: (name ++ '\x7d' :: '\x7d' :: b)).length
      = (name.length + b.length + 3) + 1 := by
    simp [List.length_append]; omega
  rw [hlen, renderA, if_pos ⟨rfl, rfl⟩, findClose_no_rbrace name b h]
  have hr : renderA ctx (name.length + b.length + 3) b = renderChars ctx b :=
    renderA_eq_renderChars ctx (by omega)
  dsimp only
  rw [hr]
  rfl

/-- Fuel irrelevance for `templateVarsA`. -/
theorem templateVarsA_fuel :
    ∀ f g s, s.length ≤ f → s.length ≤ g → templateVarsA f s = templateVarsA g s := by
  intro f
  induction f with
  | zero =>
    intro g s hf _
    have hs : s = [] := List.eq_nil_of_length_eq_zero (Nat.le_zero.mp hf)
    subst hs
    simp [templateVarsA]
  | succ f ih =>
    intro g s hf hg
    match s with
    | [] => simp [templateVarsA]
    | [c] => simp [templateVarsA]
    | c :: c2 :: rest =>
      match g with
      | 0 => simp [List.length_cons] at hg
      | g + 1 =>
        simp only [templateVarsA]
        by_cases hbr : c = '\x7b' ∧ c2 = '\x7b'
        · rw [if_pos hbr, if_pos hbr]
          cases hfc : findClose rest with
          | none => rfl
          | some p =>
            obtain ⟨inside, rest'⟩ := p
            have hlen := findClose_length hfc
            simp only [List.length_cons] at hf hg
            dsimp only
            rw [ih g rest' (by omega) (by omega)]
        · rw [if_neg hbr, if_neg hbr]
          simp only [List.length_cons] at hf hg
          rw [ih g (c2 :: rest) (by simp; omega) (by simp; omega)]

theorem templateVarsA_eq (f : Nat) (s : Str) (h : s.length ≤ f) :
    templateVarsA f s = templateVars s :=
  templateVarsA_fuel f s.length s h (Nat.le_refl _)

/-- A leading renderer-safe literal chunk contributes no variables. -/
theorem templateVars_append_lit :
    ∀ a b : Str, litOK a = true → templateVars (a ++ b) = templateVars b := by
  intro a
  induction a with
  | nil => intro b _; rfl
  | cons c a' ih =>
    intro b h
    cases hab : a' ++ b with
    | nil =>
      obtain ⟨ha', hb⟩ := List.append_eq_nil.mp hab
      subst ha'; subst hb
      simp [templateVars, templateVarsA]
    | cons c2 rest2 =>
      have hpair := litOK_head_pair h hab
      have hsh : (c :: a') ++ b = c :: c2 :: rest2 := by simp [hab]
      rw [hsh]
      show templateVarsA (c :: c2 :: rest2).length (c :: c2 :: rest2) = _
      simp only [List.length_cons]
      rw [templateVarsA, if_neg hpair]
      rw [templateVarsA_eq _ _ (by simp), ← hab, ih b (litOK_tail h)]

/-- A renderer-safe literal chunk has no variables. -/
theorem templateVars_lit (a : Str) (h : litOK a = true) : templateVars a = [] := by
  have := templateVars_append_lit a [] h
  simpa using this

/-- A leading placeholder contributes its (stripped) name. -/
theorem templateVars_mkvar (name b : Str) (h : '\x7d' ∉ name) :
    templateVars (mkVar name ++ b) = strip name :: templateVars b := by
  have hshape : mkVar name ++ b = '\x7b' :: '\x7b' :: (name ++ '\x7d' :: '\x7d' :: b) := by
    simp [mkVar]
  rw [hshape]
  show templateVarsA ('\x7b' :: '\x7b' :: (name ++ '\x7d' :: '\x7d' :: b)).length _ = _
  have hlen : ('\x7b' :: '\x7b' :: (name ++ '\x7d' :: '\x7d' :: b)).length
      = (name.length + b.length + 3) + 1 := by
    simp [List.length_append]; omega
  rw [hlen, templateVarsA, if_pos ⟨rfl, rfl⟩, findClose_no_rbrace name b h]
  dsimp only
  rw [templateVarsA_eq _ _ (by omega)]

/-- Context lookup in an escaped context escapes the looked-up value. -/
theorem lookupCtx_map_escape (name : Str) :
    ∀ ctx : List (Str × Str),
      lookupCtx name (ctx.map (fun p => (p.1, escapeHTML p.2)))
        = (lookupCtx name ctx).map escapeHTML := by
  intro ctx
  induction ctx with
  | nil => rfl
  | cons p rest ih =>
    obtain ⟨k, v⟩ := p
    by_cases hk : k = name
    · simp [lookupCtx, hk]
    · simp [lookupCtx, hk, ih]

theorem renderA_escape_raw (ctx : List (Str × Str)) :
    ∀ f s, renderA ctx f s
      = renderRawA (ctx.map (fun p => (p.1, escapeHTML p.2))) f s := by
  intro f
  induction f with
  | zero => intro s; cases s with
    | nil => rfl
    | cons c cs => cases cs <;> rfl
  | succ f ih =>
    intro s
    match s with
    | [] => rfl
    | [c] => rfl
    | c :: c2 :: rest =>
      simp only [renderA, renderRawA]
      by_cases hbr : c = '\x7b' ∧ c2 = '\x7b'
      · rw [if_pos hbr, if_pos hbr]
        cases hfc : findClose rest with
        | none => rfl
        | some p =>
          obtain ⟨inside, rest'⟩ := p
          dsimp only
          rw [lookupCtx_map_escape, ih rest']
          cases lookupCtx (strip inside) ctx <;> rfl
      · rw [if_neg hbr, if_neg hbr, ih (c2 :: rest)]

theorem dedupLowerAux_sublist :
    ∀ (seen : List Str) (l : List Str), List.Sublist (dedupLowerAux seen l) l := by
  intro seen l
  induction l generalizing seen with
  | nil => simp [dedupLowerAux]
  | cons p ps ih =>
    rw [dedupLowerAux]
    split
    · exact List.Sublist.cons p (ih seen)
    · exact List.Sublist.cons₂ p (ih (lower p :: seen))

theorem dedupLowerAux_not_seen :
    ∀ (seen : List Str) (l : List Str) (p : Str),
      p ∈ dedupLowerAux seen l → lower p ∉ seen := by
  intro seen l
  induction l generalizing seen with
  | nil => intro p hp; simp [dedupLowerAux] at hp
  | cons q qs ih =>
    intro p hp
    rw [dedupLowerAux] at hp
    split at hp
    · exact ih seen p hp
    · rcases List.mem_cons.mp hp with hq | hq
      · subst hq; assumption
      · have := ih (lower q :: seen) p hq
        exact fun hm => this (List.mem_cons_of_mem _ hm)

theorem dedupLowerAux_keys_nodup :
    ∀ (seen : List Str) (l : List Str), ((dedupLowerAux seen l).map lower).Nodup := by
  intro seen l
  induction l generalizing seen with
  | nil => simp [dedupLowerAux]
  | cons q qs ih =>
    rw [dedupLowerAux]
    split
    · exact ih seen
    · rw [List.map_cons, List.nodup_cons]
      refine ⟨fun hm => ?_, ih (lower q :: seen)⟩
      obtain ⟨p, hp, hpc⟩ := List.mem_map.mp hm
      have := dedupLowerAux_not_seen (lower q :: seen) qs p hp
      exact this (by rw [hpc]; exact List.mem_cons_self _ _)

theorem dedupLowerAux_find? :
    ∀ (seen : List Str) (l : List Str) (p : Str),
      p ∈ dedupLowerAux seen l →
        l.find? (fun q => lower q == lower p) = some p := by
  intro seen l
  induction l generalizing seen with
  | nil => intro p hp; simp [dedupLowerAux] at hp
  | cons q qs ih =>
    intro p hp
    rw [dedupLowerAux] at hp
    split at hp
    · rename_i hseen
      have hne : lower q ≠ lower p := by
        intro he
        exact dedupLowerAux_not_seen seen qs p hp (he ▸ hseen)
      rw [List.find?_cons_of_neg _ (by simpa using hne)]
      exact ih seen p hp
    · rename_i hseen
      rcases List.mem_cons.mp hp with hq | hq
      · subst hq
        rw [List.find?_cons_of_pos _ (by simp)]
      · have hnotin := dedupLowerAux_not_seen (lower q :: seen) qs p hq
        have hne : lower q ≠ lower p := fun he =>
          hnotin (he ▸ List.mem_cons_self _ _)
        rw [List.find?_cons_of_neg _ (by simpa using hne)]
        exact ih (lower q :: seen) p hq

theorem dedupLowerAux_keys_complete :
    ∀ (seen : List Str) (l : List Str) (q : Str), q ∈ l →
      lower q ∈ seen ∨ lower q ∈ (dedupLowerAux seen l).map lower := by
  intro seen l
  induction l generalizing seen with
  | nil => intro q hq; simp at hq
  | cons x xs ih =>
    intro q hq
    rw [dedupLowerAux]
    rcases List.mem_cons.mp hq with hx | hx
    · subst hx
      split
      · left; assumption
      · right; simp
    · split
      · exact ih seen q hx
      · rcases ih (lower x :: seen) q hx with hm | hm
        · rcases List.mem_cons.mp hm with he | he
          · right; simp [he]
          · left; exact he
        · right; simp [hm]

theorem dedupLowerAux_eq_self :
    ∀ (seen : List Str) (l : List Str),
      (∀ x ∈ l, lower x ∉ seen) → (l.map lower).Nodup →
        dedupLowerAux seen l = l := by
  intro seen l
  induction l generalizing seen with
  | nil => intro _ _; rfl
  | cons x xs ih =>
    intro hseen hnd
    rw [dedupLowerAux, if_neg (hseen x (List.mem_cons_self _ _))]
    rw [List.map_cons, List.nodup_cons] at hnd
    congr 1
    refine ih (lower x :: seen) (fun y hy => ?_) hnd.2
    intro hm
    rcases List.mem_cons.mp hm with he | he
    · exact hnd.1 (he ▸ List.mem_map_of_mem lower hy)
    · exact hseen y (List.mem_cons_of_mem _ hy) he

theorem dropWhile_idem (p : Char → Bool) :
    ∀ l : Str, (l.dropWhile p).dropWhile p = l.dropWhile p := by
  intro l
  induction l with
  | nil => rfl
  | cons x xs ih =>
    by_cases hx : p x
    · simp [List.dropWhile_cons, hx, ih]
    · simp [List.dropWhile_cons, hx]

theorem lstrip_idem (s : Str) : lstrip (lstrip s) = lstrip s :=
  dropWhile_idem isSpace s

theorem rstrip_idem (s : Str) : rstrip (rstrip s) = rstrip s := by
  simp [rstrip, List.reverse_reverse, dropWhile_idem]

theorem lstrip_head_not_space {s : Str} {c : Char} {cs : Str}
    (h : lstrip s = c :: cs) : isSpace c = false := by
  induction s with
  | nil => simp [lstrip] at h
  | cons x xs ih =>
    by_cases hx : isSpace x
    · rw [lstrip, List.dropWhile_cons, if_pos (by simp [hx])] at h
      exact ih h
    · rw [lstrip, List.dropWhile_cons, if_neg (by simp [hx])] at h
      cases h
      simpa using hx

theorem lstrip_of_fixed {t : Str} (h : lstrip t = t) : ∀ u, List.IsPrefix u t → lstrip u = u := by
  intro u hu
  cases u with
  | nil => rfl
  | cons c cs =>
    obtain ⟨r, hr⟩ := hu
    have hc : isSpace c = false := by
      have : lstrip t = c :: (cs ++ r) := by rw [← hr] at h ⊢; simpa using h
      exact lstrip_head_not_space this
    rw [lstrip, List.dropWhile_cons, if_neg (by simp [hc])]

theorem rstripPrefixOfSelf (t : Str) : List.IsPrefix (rstrip t) t := by
  have h := List.dropWhile_suffix (l := t.reverse) isSpace
  have := List.reverse_prefix.mpr h
  simpa [rstrip] using this

theorem strip_idem (s : Str) : strip (strip s) = strip s := by
  have h1 : lstrip (rstrip (lstrip s)) = rstrip (lstrip s) :=
    lstrip_of_fixed (lstrip_idem s) _ (rstripPrefixOfSelf (lstrip s))
  simp [strip, h1, rstrip_idem]

theorem strip_sublist (s : Str) : List.Sublist (strip s) s := by
  have h1 : List.Sublist (lstrip s) s := List.dropWhile_sublist isSpace
  have h2 : List.Sublist (rstrip (lstrip s)) (lstrip s) := by
    have := List.dropWhile_sublist (l := (lstrip s).reverse) isSpace
    have := this.reverse
    simpa [rstrip] using this
  exact h2.trans h1

theorem splitChar_ne_nil (c : Char) : ∀ l : Str, splitChar c l ≠ [] := by
  intro l
  cases l with
  | nil => simp [splitChar]
  | cons x xs =>
    rw [splitChar]
    split
    · simp
    · split
      · simp
      · simp

theorem splitChar_parts (c : Char) :
    ∀ (l : Str) (p : Str), p ∈ splitChar c l → c ∉ p ∧ ∀ x ∈ p, x ∈ l := by
  intro l
  induction l with
  | nil =>
    intro p hp
    rw [splitChar] at hp
    rcases List.mem_singleton.mp hp with rfl
    exact ⟨by simp, by simp⟩
  | cons d ds ih =>
    intro p hp
    rw [splitChar] at hp
    split at hp
    · rename_i hd
      rcases List.mem_cons.mp hp with rfl | hp'
      · exact ⟨by simp, by simp⟩
      · obtain ⟨h1, h2⟩ := ih p hp'
        exact ⟨h1, fun x hx => List.mem_cons_of_mem _ (h2 x hx)⟩
    · rename_i hd
      rcases hsp : splitChar c ds with _ | ⟨q, qs⟩
      · exact absurd hsp (splitChar_ne_nil c ds)
      · rw [hsp] at hp
        rcases List.mem_cons.mp hp with rfl | hp'
        · have hq : q ∈ splitChar c ds := by rw [hsp]; exact List.mem_cons_self _ _
          obtain ⟨h1, h2⟩ := ih q hq
          refine ⟨?_, ?_⟩
          · intro hm
            rcases List.mem_cons.mp hm with he | he
            · exact hd he.symm
            · exact h1 he
          · intro x hx
            rcases List.mem_cons.mp hx with rfl | hx'
            · exact List.mem_cons_self _ _
            · exact List.mem_cons_of_mem _ (h2 x hx')
        · have : p ∈ splitChar c ds := by rw [hsp]; exact List.mem_cons_of_mem _ hp'
          obtain ⟨h1, h2⟩ := ih p this
          exact ⟨h1, fun x hx => List.mem_cons_of_mem _ (h2 x hx)⟩

theorem mem_replaceCommaSemi {s : Str} : ',' ∉ replaceCommaSemi s := by
  intro hm
  obtain ⟨c, _, hc⟩ := List.mem_map.mp hm
  by_cases h : c = ',' <;> simp [h] at hc

/-- Facts about every token produced by `_split_recipients`: it is stripped,
non-empty, and contains neither `;` nor `,`. -/
theorem split_recipients_token {s t : Str} (h : t ∈ _split_recipients s) :
    strip t = t ∧ t ≠ [] ∧ ';' ∉ t ∧ ',' ∉ t := by
  rw [_split_recipients] at h
  rw [List.mem_filter] at h
  obtain ⟨hmem, hne⟩ := h
  obtain ⟨p, hp, hpt⟩ := List.mem_map.mp hmem
  subst hpt
  obtain ⟨hsemi, hsub⟩ := splitChar_parts ';' _ p hp
  refine ⟨strip_idem p, by simpa using hne, ?_, ?_⟩
  · intro hm
    exact hsemi ((strip_sublist p).subset hm)
  · intro hm
    exact mem_replaceCommaSemi (hsub ',' ((strip_sublist p).subset hm))

theorem splitChar_of_not_mem {c : Char} :
    ∀ {xs : Str}, c ∉ xs → splitChar c xs = [xs] := by
  intro xs
  induction xs with
  | nil => intro _; rfl
  | cons x l ih =>
    intro h
    rw [splitChar, if_neg (by intro he; subst he; exact h (List.mem_cons_self _ _))]
    rw [ih (fun hm => h (List.mem_cons_of_mem _ hm))]

theorem splitChar_append_of_not_mem {c : Char} :
    ∀ {xs ys : Str} {p : Str} {ps : List Str}, c ∉ xs → splitChar c ys = p :: ps →
      splitChar c (xs ++ ys) = (xs ++ p) :: ps := by
  intro xs
  induction xs with
  | nil => intro ys p ps _ h; simpa using h
  | cons x l ih =>
    intro ys p ps hx h
    rw [List.cons_append, splitChar,
      if_neg (by intro he; subst he; exact hx (List.mem_cons_self _ _))]
    rw [ih (fun hm => hx (List.mem_cons_of_mem _ hm)) h]
    rfl

theorem splitChar_joinWith :
    ∀ (l : List Str) (a : Str), ';' ∉ a → (∀ t ∈ l, ';' ∉ t) →
      splitChar ';' (joinWith "; ".data (a :: l))
        = a :: l.map (fun u => ' ' :: u) := by
  intro l
  induction l with
  | nil =>
    intro a ha _
    rw [joinWith, splitChar_of_not_mem ha]
    rfl
  | cons b l' ih =>
    intro a ha hl
    have hb : ';' ∉ b := hl b (List.mem_cons_self _ _)
    have hl' : ∀ t ∈ l', ';' ∉ t := fun t ht => hl t (List.mem_cons_of_mem _ ht)
    have hstep := ih b hb hl'
    have hshape : joinWith "; ".data (a :: b :: l')
        = a ++ ';' :: ' ' :: joinWith "; ".data (b :: l') := by
      rw [joinWith, List.append_assoc]
      rfl
    rw [hshape]
    have hinner : splitChar ';' (';' :: ' ' :: joinWith "; ".data (b :: l'))
        = [] :: splitChar ';' (' ' :: joinWith "; ".data (b :: l')) := by
      rw [splitChar, if_pos rfl]
    have hsp : splitChar ';' (' ' :: joinWith "; ".data (b :: l'))
        = (' ' :: b) :: l'.map (fun u => ' ' :: u) := by
      rw [splitChar, if_neg (by decide)]
      rw [hstep]
    obtain ⟨q, qs, hqs⟩ : ∃ q qs, splitChar ';' (';' :: ' ' :: joinWith "; ".data (b :: l')) = q :: qs := by
      rw [hinner]
      exact ⟨_, _, rfl⟩
    rw [splitChar_append_of_not_mem ha hqs]
    rw [hinner] at hqs
    cases hqs
    rw [hsp]
    simp

theorem replaceCommaSemi_of_no_comma {s : Str} (h : ',' ∉ s) :
    replaceCommaSemi s = s := by
  rw [replaceCommaSemi]
  conv_rhs => rw [← List.map_id s]
  refine List.map_congr_left (fun c hc => ?_)
  rw [if_neg (by intro he; subst he; exact h hc)]
  rfl

theorem mem_joinWith {x : Char} :
    ∀ {sep : Str} {l : List Str}, x ∈ joinWith sep l → x ∈ sep ∨ ∃ t ∈ l, x ∈ t := by
  intro sep l
  induction l with
  | nil => intro h; simp [joinWith] at h
  | cons a l' ih =>
    intro h
    cases l' with
    | nil =>
      rw [joinWith] at h
      exact Or.inr ⟨a, List.mem_singleton_self a, h⟩
    | cons b l'' =>
      rw [joinWith] at h
      rcases List.mem_append.mp h with h1 | h2
      · rcases List.mem_append.mp h1 with ha | hs
        · exact Or.inr ⟨a, List.mem_cons_self _ _, ha⟩
        · exact Or.inl hs
      · rcases ih h2 with hs | ⟨t, ht, hx⟩
        · exact Or.inl hs
        · exact Or.inr ⟨t, List.mem_cons_of_mem _ ht, hx⟩

theorem lstrip_space_cons (u : Str) : lstrip (' ' :: u) = lstrip u := by
  rw [lstrip, List.dropWhile_cons, if_pos (by decide)]
  rfl

theorem strip_space_cons (u : Str) : strip (' ' :: u) = strip u := by
  rw [strip, lstrip_space_cons]
  rfl

/-- Splitting the `"; "`-join of stripped, non-empty, separator-free tokens
recovers exactly the tokens. -/
theorem split_recipients_joinWith {l : List Str}
    (h : ∀ t ∈ l, strip t = t ∧ t ≠ [] ∧ ';' ∉ t ∧ ',' ∉ t) :
    _split_recipients (joinWith "; ".data l) = l := by
  cases l with
  | nil => rfl
  | cons a l' =>
    have hnc : ',' ∉ joinWith "; ".data (a :: l') := by
      intro hm
      rcases mem_joinWith hm with hs | ⟨t, ht, hx⟩
      · exact absurd hs (by decide)
      · exact (h t ht).2.2.2 hx
    rw [_split_recipients, replaceCommaSemi_of_no_comma hnc]
    rw [splitChar_joinWith l' a (h a (List.mem_cons_self _ _)).2.2.1
      (fun t ht => (h t (List.mem_cons_of_mem _ ht)).2.2.1)]
    rw [List.map_cons, List.map_map]
    have hmap : l'.map (strip ∘ fun u => ' ' :: u) = l' := by
      refine List.map_congr_left (fun t ht => ?_) |>.trans (List.map_id l')
      show strip (' ' :: t) = id t
      rw [strip_space_cons]
      exact (h t (List.mem_cons_of_mem _ ht)).1
    rw [hmap, (h a (List.mem_cons_self _ _)).1]
    rw [List.filter_cons_of_pos (by simpa using (h a (List.mem_cons_self _ _)).2.1)]
    congr 1
    refine List.filter_eq_self.mpr (fun t ht => ?_)
    simpa using (h t (List.mem_cons_of_mem _ ht)).2.1

/-- The substitutable variables of `BODY_SEBASTIAN_ERD`. -/
theorem tv_BODY_SEBASTIAN_ERD :
    templateVars BODY_SEBASTIAN_ERD = ["case_manager_name".data, "client_name".data, "case_code".data] := by
  rw [show BODY_SEBASTIAN_ERD = sebC1 ++ (mkVar " case_manager_name ".data ++ (sebC2 ++ (mkVar " client_name ".data ++ (sebC3 ++ (mkVar " case_code ".data ++ (sebC4 ++ (sebC5 ++ (sebC6 ++ (sebC7 ++ (sebC8 ++ (sebC9 ++ (sebC10 ++ (sebC11 ++ (sebC12 ++ (sebC13))))))))))))))) from by
    simp only [BODY_SEBASTIAN_ERD, List.append_assoc]]
  rw [templateVars_append_lit sebC1 _ sebC1_ok,
      templateVars_mkvar " case_manager_name ".data _ (by decide),
      templateVars_append_lit sebC2 _ sebC2_ok,
      templateVars_mkvar " client_name ".data _ (by decide),
      templateVars_append_lit sebC3 _ sebC3_ok,
      templateVars_mkvar " case_code ".data _ (by decide),
      templateVars_append_lit sebC4 _ sebC4_ok,
      templateVars_append_lit sebC5 _ sebC5_ok,
      templateVars_append_lit sebC6 _ sebC6_ok,
      templateVars_append_lit sebC7 _ sebC7_ok,
      templateVars_append_lit sebC8 _ sebC8_ok,
      templateVars_append_lit sebC9 _ sebC9_ok,
      templateVars_append_lit sebC10 _ sebC10_ok,
      templateVars_append_lit sebC11 _ sebC11_ok,
      templateVars_append_lit sebC12 _ sebC12_ok,
      templateVars_lit sebC13 sebC13_ok]
  decide

/-- `BODY_SEBASTIAN_ERD` renders successfully in any context. -/
theorem rc_BODY_SEBASTIAN_ERD (ctx : List (Str × Str)) :
    ∃ w, renderChars ctx BODY_SEBASTIAN_ERD = some w := by
  rw [show BODY_SEBASTIAN_ERD = sebC1 ++ (mkVar " case_manager_name ".data ++ (sebC2 ++ (mkVar " client_name ".data ++ (sebC3 ++ (mkVar " case_code ".data ++ (sebC4 ++ (sebC5 ++ (sebC6 ++ (sebC7 ++ (sebC8 ++ (sebC9 ++ (sebC10 ++ (sebC11 ++ (sebC12 ++ (sebC13))))))))))))))) from by
    simp only [BODY_SEBASTIAN_ERD, List.append_assoc]]
  rw [renderChars_append_lit ctx sebC1 _ sebC1_ok,
      renderChars_mkvar ctx " case_manager_name ".data _ (by decide),
      renderChars_append_lit ctx sebC2 _ sebC2_ok,
      renderChars_mkvar ctx " client_name ".data _ (by decide),
      renderChars_append_lit ctx sebC3 _ sebC3_ok,
      renderChars_mkvar ctx " case_code ".data _ (by decide),
      renderChars_append_lit ctx sebC4 _ sebC4_ok,
      renderChars_append_lit ctx sebC5 _ sebC5_ok,
      renderChars_append_lit ctx sebC6 _ sebC6_ok,
      renderChars_append_lit ctx sebC7 _ sebC7_ok,
      renderChars_append_lit ctx sebC8 _ sebC8_ok,
      renderChars_append_lit ctx sebC9 _ sebC9_ok,
      renderChars_append_lit ctx sebC10 _ sebC10_ok,
      renderChars_append_lit ctx sebC11 _ sebC11_ok,
      renderChars_append_lit ctx sebC12 _ sebC12_ok,
      renderChars_lit ctx sebC13 sebC13_ok]
  exact ⟨_, rfl⟩

/-- The substitutable variables of `BODY_POC_ERD`. -/
theorem tv_BODY_POC_ERD :
    templateVars BODY_POC_ERD = ["case_manager_name".data, "client_name".data, "case_code".data, "poc_display_name".data] := by
  rw [show BODY_POC_ERD = pocBC1 ++ (mkVar " case_manager_name ".data ++ (pocBC2 ++ (pocBC3 ++ (mkVar " client_name ".data ++ (pocBC4 ++ (mkVar " case_code ".data ++ (pocBC5 ++ (pocBC6 ++ (pocBC7 ++ (pocBC8 ++ (mkVar " poc_display_name ".data ++ (pocBC9 ++ (pocBC10 ++ (pocBC11 ++ (pocBC12 ++ (pocBC13 ++ (pocBC14 ++ (pocBC15 ++ (pocBC16 ++ (pocBC17)))))))))))))))))))) from by
    simp only [BODY_POC_ERD, List.append_assoc]]
  rw [templateVars_append_lit pocBC1 _ pocBC1_ok,
      templateVars_mkvar " case_manager_name ".data _ (by decide),
      templateVars_append_lit pocBC2 _ pocBC2_ok,
      templateVars_append_lit pocBC3 _ pocBC3_ok,
      templateVars_mkvar " client_name ".data _ (by decide),
      templateVars_append_lit pocBC4 _ pocBC4_ok,
      templateVars_mkvar " case_code ".data _ (by decide),
      templateVars_append_lit pocBC5 _ pocBC5_ok,
      templateVars_append_lit pocBC6 _ pocBC6_ok,
      templateVars_append_lit pocBC7 _ pocBC7_ok,
      templateVars_append_lit pocBC8 _ pocBC8_ok,
      templateVars_mkvar " poc_display_name ".data _ (by decide),
      templateVars_append_lit pocBC9 _ pocBC9_ok,
      templateVars_append_lit pocBC10 _ pocBC10_ok,
      templateVars_append_lit pocBC11 _ pocBC11_ok,
      templateVars_append_lit pocBC12 _ pocBC12_ok,
      templateVars_append_lit pocBC13 _ pocBC13_ok,
      templateVars_append_lit pocBC14 _ pocBC14_ok,
      templateVars_append_lit pocBC15 _ pocBC15_ok,
      templateVars_append_lit pocBC16 _ pocBC16_ok,
      templateVars_lit pocBC17 pocBC17_ok]
  decide

/-- `BODY_POC_ERD` renders successfully in any context. -/
theorem rc_BODY_POC_ERD (ctx : List (Str × Str)) :
    ∃ w, renderChars ctx BODY_POC_ERD = some w := by
  rw [show BODY_POC_ERD = pocBC1 ++ (mkVar " case_manager_name ".data ++ (pocBC2 ++ (pocBC3 ++ (mkVar " client_name ".data ++ (pocBC4 ++ (mkVar " case_code ".data ++ (pocBC5 ++ (pocBC6 ++ (pocBC7 ++ (pocBC8 ++ (mkVar " poc_display_name ".data ++ (pocBC9 ++ (pocBC10 ++ (pocBC11 ++ (pocBC12 ++ (pocBC13 ++ (pocBC14 ++ (pocBC15 ++ (pocBC16 ++ (pocBC17)))))))))))))))))))) from by
    simp only [BODY_POC_ERD, List.append_assoc]]
  rw [renderChars_append_lit ctx pocBC1 _ pocBC1_ok,
      renderChars_mkvar ctx " case_manager_name ".data _ (by decide),
      renderChars_append_lit ctx pocBC2 _ pocBC2_ok,
      renderChars_append_lit ctx pocBC3 _ pocBC3_ok,
      renderChars_mkvar ctx " client_name ".data _ (by decide),
      renderChars_append_lit ctx pocBC4 _ pocBC4_ok,
      renderChars_mkvar ctx " case_code ".data _ (by decide),
      renderChars_append_lit ctx pocBC5 _ pocBC5_ok,
      renderChars_append_lit ctx pocBC6 _ pocBC6_ok,
      renderChars_append_lit ctx pocBC7 _ pocBC7_ok,
      renderChars_append_lit ctx pocBC8 _ pocBC8_ok,
      renderChars_mkvar ctx " poc_display_name ".data _ (by decide),
      renderChars_append_lit ctx pocBC9 _ pocBC9_ok,
      renderChars_append_lit ctx pocBC10 _ pocBC10_ok,
      renderChars_append_lit ctx pocBC11 _ pocBC11_ok,
      renderChars_append_lit ctx pocBC12 _ pocBC12_ok,
      renderChars_append_lit ctx pocBC13 _ pocBC13_ok,
      renderChars_append_lit ctx pocBC14 _ pocBC14_ok,
      renderChars_append_lit ctx pocBC15 _ pocBC15_ok,
      renderChars_append_lit ctx pocBC16 _ pocBC16_ok,
      renderChars_lit ctx pocBC17 pocBC17_ok]
  exact ⟨_, rfl⟩

/-- The substitutable variables of `BODY_ASEEM_ERD`. -/
theorem tv_BODY_ASEEM_ERD :
    templateVars BODY_ASEEM_ERD = ["case_manager_name".data, "client_name".data] := by
  rw [show BODY_ASEEM_ERD = asmC1 ++ (mkVar " case_manager_name ".data ++ (asmC2 ++ (asmC3 ++ (mkVar " client_name ".data ++ (asmC4 ++ (asmC5)))))) from by
    simp only [BODY_ASEEM_ERD, List.append_assoc]]
  rw [templateVars_append_lit asmC1 _ asmC1_ok,
      templateVars_mkvar " case_manager_name ".data _ (by decide),
      templateVars_append_lit asmC2 _ asmC2_ok,
      templateVars_append_lit asmC3 _ asmC3_ok,
      templateVars_mkvar " client_name ".data _ (by decide),
      templateVars_append_lit asmC4 _ asmC4_ok,
      templateVars_lit asmC5 asmC5_ok]
  decide

/-- `BODY_ASEEM_ERD` renders successfully in any context. -/
theorem rc_BODY_ASEEM_ERD (ctx : List (Str × Str)) :
    ∃ w, renderChars ctx BODY_ASEEM_ERD = some w := by
  rw [show BODY_ASEEM_ERD = asmC1 ++ (mkVar " case_manager_name ".data ++ (asmC2 ++ (asmC3 ++ (mkVar " client_name ".data ++ (asmC4 ++ (asmC5)))))) from by
    simp only [BODY_ASEEM_ERD, List.append_assoc]]
  rw [renderChars_append_lit ctx asmC1 _ asmC1_ok,
      renderChars_mkvar ctx " case_manager_name ".data _ (by decide),
      renderChars_append_lit ctx asmC2 _ asmC2_ok,
      renderChars_append_lit ctx asmC3 _ asmC3_ok,
      renderChars_mkvar ctx " client_name ".data _ (by decide),
      renderChars_append_lit ctx asmC4 _ asmC4_ok,
      renderChars_lit ctx asmC5 asmC5_ok]
  exact ⟨_, rfl⟩

/-- The substitutable variables of `_lipsum_initial` at the label `"Supply Chain"`. -/
theorem tv_lipsum_initial :
    templateVars (_lipsum_initial "Supply Chain".data) = ["client_name".data, "case_code".data] := by
  rw [show _lipsum_initial "Supply Chain".data = lipInitC1 ++ (mkVar " client_name ".data ++ (lipInitC2 ++ (mkVar " case_code ".data ++ (lipInitC3 ++ ("Supply Chain".data ++ (lipInitC4 ++ (lipInitC5 ++ (lipInitC6 ++ (lipInitC7))))))))) from by
    simp only [_lipsum_initial, List.append_assoc]]
  rw [templateVars_append_lit lipInitC1 _ lipInitC1_ok,
      templateVars_mkvar " client_name ".data _ (by decide),
      templateVars_append_lit lipInitC2 _ lipInitC2_ok,
      templateVars_mkvar " case_code ".data _ (by decide),
      templateVars_append_lit lipInitC3 _ lipInitC3_ok,
      templateVars_append_lit "Supply Chain".data _ (by decide),
      templateVars_append_lit lipInitC4 _ lipInitC4_ok,
      templateVars_append_lit lipInitC5 _ lipInitC5_ok,
      templateVars_append_lit lipInitC6 _ lipInitC6_ok,
      templateVars_lit lipInitC7 lipInitC7_ok]
  decide

/-- The substitutable variables of `_lipsum_poc` at the label `"Supply Chain"`. -/
theorem tv_lipsum_poc :
    templateVars (_lipsum_poc "Supply Chain".data) = ["client_name".data, "case_code".data, "poc_display_name".data] := by
  rw [show _lipsum_poc "Supply Chain".data = lipPocC1 ++ (lipPocC2 ++ ("Supply Chain".data ++ (lipPocC3 ++ (mkVar " client_name ".data ++ (lipPocC4 ++ (mkVar " case_code ".data ++ (lipPocC5 ++ (lipPocC6 ++ (mkVar " poc_display_name ".data ++ (lipPocC7 ++ (lipPocC8 ++ ("Supply Chain".data ++ (lipPocC9 ++ ("Supply Chain".data ++ (lipPocC10 ++ ("Supply Chain".data ++ (lipPocC11))))))))))))))))) from by
    simp only [_lipsum_poc, List.append_assoc]]
  rw [templateVars_append_lit lipPocC1 _ lipPocC1_ok,
      templateVars_append_lit lipPocC2 _ lipPocC2_ok,
      templateVars_append_lit "Supply Chain".data _ (by decide),
      templateVars_append_lit lipPocC3 _ lipPocC3_ok,
      templateVars_mkvar " client_name ".data _ (by decide),
      templateVars_append_lit lipPocC4 _ lipPocC4_ok,
      templateVars_mkvar " case_code ".data _ (by decide),
      templateVars_append_lit lipPocC5 _ lipPocC5_ok,
      templateVars_append_lit lipPocC6 _ lipPocC6_ok,
      templateVars_mkvar " poc_display_name ".data _ (by decide),
      templateVars_append_lit lipPocC7 _ lipPocC7_ok,
      templateVars_append_lit lipPocC8 _ lipPocC8_ok,
      templateVars_append_lit "Supply Chain".data _ (by decide),
      templateVars_append_lit lipPocC9 _ lipPocC9_ok,
      templateVars_append_lit "Supply Chain".data _ (by decide),
      templateVars_append_lit lipPocC10 _ lipPocC10_ok,
      templateVars_append_lit "Supply Chain".data _ (by decide),
      templateVars_lit lipPocC11 lipPocC11_ok]
  decide

/-- The substitutable variables of `_lipsum_escalation` at the label `"Supply Chain"`. -/
theorem tv_lipsum_escalation :
    templateVars (_lipsum_escalation "Supply Chain".data) = ["client_name".data] := by
  rw [show _lipsum_escalation "Supply Chain".data = lipEscC1 ++ (lipEscC2 ++ (mkVar " client_name ".data ++ (lipEscC3 ++ ("Supply Chain".data ++ (lipEscC4 ++ (lipEscC5)))))) from by
    simp only [_lipsum_escalation, List.append_assoc]]
  rw [templateVars_append_lit lipEscC1 _ lipEscC1_ok,
      templateVars_append_lit lipEscC2 _ lipEscC2_ok,
      templateVars_mkvar " client_name ".data _ (by decide),
      templateVars_append_lit lipEscC3 _ lipEscC3_ok,
      templateVars_append_lit "Supply Chain".data _ (by decide),
      templateVars_append_lit lipEscC4 _ lipEscC4_ok,
      templateVars_lit lipEscC5 lipEscC5_ok]
  decide

/-- The generate loop is a per-row map: the status log is the per-row status
in order, and the archive is the concatenation of the per-row zip entries. -/
theorem processBatchAux_spec (tpls : TemplateSet) (today : Str) (gen : Gen) :
    ∀ (rows : List Row) (i : Nat),
      processBatchAux tpls today gen i rows
        = ((List.enumFrom i rows).map (fun p => (processRow tpls today gen p.1 p.2).1),
           ((List.enumFrom i rows).map (fun p => (processRow tpls today gen p.1 p.2).2)).flatten) := by
  intro rows
  induction rows with
  | nil => intro i; rfl
  | cons r rs ih =>
    intro i
    rw [processBatchAux, ih (i + 1)]
    simp [List.enumFrom_cons]

/-- C1 (counterexample): the claim keys CC-removal on the email-extracted
lowercase portion, but `dedup_against_to` keys on the full lowercased token:
`"Ann <a@x.com>"` has email-extracted lowercase equal to the To entry
`"a@x.com"`'s, yet it is not removed. -/
theorem c1_counterexample :
    lower (strip_angle_display "Ann <a@x.com>".data)
        = lower (strip_angle_display "a@x.com".data)
    ∧ dedup_against_to "a@x.com".data "Ann <a@x.com>; b@y.com".data
        = "Ann <a@x.com>; b@y.com".data :=
  ⟨by decide, by decide⟩

/-- C1 (amended): `dedup_against_to to cc` removes from the CC token list
exactly those tokens whose FULL lowercased text equals the full lowercased
text of some To token (the same key as `build_cc`, not the email-extracted
portion), and joins the kept tokens with `"; "` in their original order. -/
theorem c1_dedup_full_key (to_ cc_ : Str) :
    ∃ kept : List Str,
      List.Sublist kept (_split_recipients cc_)
      ∧ (∀ x ∈ _split_recipients cc_,
          (x ∈ kept ↔ lower x ∉ (_split_recipients to_).map lower))
      ∧ dedup_against_to to_ cc_ = joinWith "; ".data kept := by
  refine ⟨(_split_recipients cc_).filter
      (fun x => decide (lower x ∉ (_split_recipients to_).map lower)),
    List.filter_sublist _, fun x hx => ?_, rfl⟩
  constructor
  · intro hm
    exact of_decide_eq_true (List.mem_filter.mp hm).2
  · intro hn
    exact List.mem_filter.mpr ⟨hx, decide_eq_true hn⟩

/-- C1 (witness): the amended statement at the spec's §8 example, together
with the concrete value of the dedup there. -/
theorem c1_witness :
    dedup_against_to "a@x.com".data "A@X.com; b@y.com".data = "b@y.com".data
    ∧ ∃ kept : List Str,
        List.Sublist kept (_split_recipients "A@X.com; b@y.com".data)
        ∧ (∀ x ∈ _split_recipients "A@X.com; b@y.com".data,
            (x ∈ kept ↔ lower x ∉ (_split_recipients "a@x.com".data).map lower))
        ∧ dedup_against_to "a@x.com".data "A@X.com; b@y.com".data
            = joinWith "; ".data kept :=
  ⟨by decide, c1_dedup_full_key "a@x.com".data "A@X.com; b@y.com".data⟩

/-- C2 (evaluation at the failing input): the non-ER&D subject template has
no substitutable placeholder at all — the Python f-string turned the intended
placeholders into the literal text `\x7b \x7b case_code \x7d \x7d`, which Jinja
renders unchanged — and every non-ER&D body lacks the `case_manager_name`
placeholder that the corresponding ER&D body substitutes, contradicting the
claimed identical variable contract (and the source's own docstring
"structure-matched"). -/
theorem c2_placeholder_divergence :
    templateVars SUBJECT_ERD = ["case_code".data, "client_name".data]
    ∧ templateVars (get_templates_for_function "Supply Chain".data).subject = []
    ∧ renderChars (ctxOf "Acme".data "C100".data "CM".data "Poc".data [])
        (get_templates_for_function "Supply Chain".data).subject
      = some "Supply Chain Data Collection - \x7b \x7b case_code \x7d \x7d (\x7b \x7b client_name \x7d \x7d)".data
    ∧ templateVars (get_templates_for_function "Supply Chain".data).sebastian
        = ["client_name".data, "case_code".data]
    ∧ templateVars BODY_SEBASTIAN_ERD
        = ["case_manager_name".data, "client_name".data, "case_code".data]
    ∧ templateVars (get_templates_for_function "Supply Chain".data).poc
        = ["client_name".data, "case_code".data, "poc_display_name".data]
    ∧ templateVars BODY_POC_ERD
        = ["case_manager_name".data, "client_name".data, "case_code".data,
           "poc_display_name".data]
    ∧ templateVars (get_templates_for_function "Supply Chain".data).aseem
        = ["client_name".data]
    ∧ templateVars BODY_ASEEM_ERD
        = ["case_manager_name".data, "client_name".data] := by
  have hne : ¬("Supply Chain".data = "ER&D".data) := by decide
  have hsc : get_templates_for_function "Supply Chain".data
      = { subject := "Supply Chain".data
            ++ " Data Collection - \x7b \x7b case_code \x7d \x7d (\x7b \x7b client_name \x7d \x7d)".data
          sebastian := _lipsum_initial "Supply Chain".data
          poc := _lipsum_poc "Supply Chain".data
          aseem := _lipsum_escalation "Supply Chain".data
          subject_label := "Supply Chain".data } := by
    rw [get_templates_for_function, if_neg hne]
  rw [hsc]
  refine ⟨by decide, ?_, ?_, ?_, tv_BODY_SEBASTIAN_ERD, ?_, tv_BODY_POC_ERD, ?_,
    tv_BODY_ASEEM_ERD⟩
  · show templateVars ("Supply Chain".data ++ _) = []
    rw [templateVars_append_lit "Supply Chain".data _ (by decide)]
    exact templateVars_lit _ (by decide)
  · show renderChars _ ("Supply Chain".data ++ _) = _
    rw [renderChars_append_lit _ "Supply Chain".data _ (by decide),
      renderChars_lit _ _ (by decide)]
    decide
  · exact tv_lipsum_initial
  · exact tv_lipsum_poc
  · exact tv_lipsum_escalation

/-- C3 (counterexample): rendering a template that references a name absent
from the context is not an error — Jinja's default `Undefined` renders as the
empty string, so the result is `some ""`, not a failure. -/
theorem c3_counterexample :
    renderChars [] "\x7b\x7b missing \x7d\x7d".data = some [] := by decide

/-- C3 (amended): a reference to a variable name not present in the context
renders as the empty string (the render succeeds and the output is exactly
the rendering of the rest of the template); it is not a rendering error. -/
theorem c3_undefined_renders_empty (ctx : List (Str × Str)) (name b : Str)
    (h : '\x7d' ∉ name) (hu : lookupCtx (strip name) ctx = none) :
    renderChars ctx (mkVar name ++ b) = renderChars ctx b := by
  rw [renderChars_mkvar ctx name b h]
  have hv : ctxVal ctx (strip name) = [] := by rw [ctxVal, hu]
  rw [hv]
  cases renderChars ctx b <;> simp

/-- C3 (witness): the amended statement at a concrete template and context. -/
theorem c3_witness :
    renderChars [("client_name".data, "Acme".data)] (mkVar " nope ".data ++ "xy".data)
        = renderChars [("client_name".data, "Acme".data)] "xy".data
    ∧ renderChars [("client_name".data, "Acme".data)] "xy".data = some "xy".data :=
  ⟨c3_undefined_renders_empty [("client_name".data, "Acme".data)] " nope ".data
      "xy".data (by decide) (by decide),
   by decide⟩

/-- C4: the spec's end-to-end ER&D example row: rendered subject
`"ER&D Data Collection - C100 (Acme)"`, Stage-1 CC after merge and
dedup-against-To `"tl@acme.com; poc@acme.com; ERDDBTeam.Global@Bain.com"`,
and the three artifacts at `"1_Sebastian_Initial/Acme - C100.oft"` etc. with
row status OK. -/
theorem c4_end_to_end :
    renderChars (rowCtx [] rowAcme) SUBJECT_ERD
        = some "ER&D Data Collection - C100 (Acme)".data
    ∧ ccStage1 rowAcme
        = "tl@acme.com; poc@acme.com; ERDDBTeam.Global@Bain.com".data
    ∧ processRow (get_templates_for_function "ER&D".data) [] genOK 0 rowAcme
        = (.ok "Acme - C100".data,
           [("1_Sebastian_Initial/Acme - C100.oft".data, []),
            ("2_POC_Follow_Up/Acme - C100.oft".data, []),
            ("3_Aseem_Escalation/Acme - C100.oft".data, [])]) := by
  have herd : get_templates_for_function "ER&D".data
      = { subject := SUBJECT_ERD, sebastian := BODY_SEBASTIAN_ERD,
          poc := BODY_POC_ERD, aseem := BODY_ASEEM_ERD,
          subject_label := "ER&D".data } := by
    rw [get_templates_for_function, if_pos rfl]
  have hsubj : renderChars (rowCtx [] rowAcme) SUBJECT_ERD
      = some "ER&D Data Collection - C100 (Acme)".data := by decide
  obtain ⟨w1, hw1⟩ := rc_BODY_SEBASTIAN_ERD (rowCtx [] rowAcme)
  obtain ⟨w2, hw2⟩ := rc_BODY_POC_ERD (rowCtx [] rowAcme)
  obtain ⟨w3, hw3⟩ := rc_BODY_ASEEM_ERD (rowCtx [] rowAcme)
  refine ⟨hsubj, by decide, ?_⟩
  rw [herd, processRow, if_neg (by decide)]
  dsimp only
  rw [hsubj, show rowRecipientsOk rowAcme = true from by decide, hw1,
    show genOK 0 1 = Except.ok [] from rfl, hw2,
    show genOK 0 2 = Except.ok [] from rfl, hw3,
    show genOK 0 3 = Except.ok [] from rfl]
  rfl

/-- C5: the merged recipient list of `build_cc` has pairwise-distinct full
lowercased entries, is a sublist of the concatenated source tokens (so
relative order is preserved), each kept entry is the first occurrence of its
lowercase key, and every source token's key is represented. -/
theorem c5_merge_dedup (chunks : List Str) :
    build_cc chunks = joinWith "; ".data (buildCCList chunks)
    ∧ List.Sublist (buildCCList chunks) (chunks.flatMap _split_recipients)
    ∧ ((buildCCList chunks).map lower).Nodup
    ∧ (∀ p ∈ buildCCList chunks,
        (chunks.flatMap _split_recipients).find? (fun q => lower q == lower p)
          = some p)
    ∧ (∀ q ∈ chunks.flatMap _split_recipients,
        lower q ∈ (buildCCList chunks).map lower) := by
  refine ⟨rfl, dedupLowerAux_sublist _ _, dedupLowerAux_keys_nodup _ _,
    fun p hp => dedupLowerAux_find? [] _ p hp, fun q hq => ?_⟩
  rcases dedupLowerAux_keys_complete [] _ q hq with hm | hm
  · simp at hm
  · exact hm

/-- C5 (witness): the deduplication properties at a concrete source list with
case-varied duplicates. -/
theorem c5_witness :
    ((buildCCList ccChunksEx).map lower).Nodup
    ∧ (ccChunksEx.flatMap _split_recipients).find?
        (fun q => lower q == lower "A <a@x.com>".data) = some "A <a@x.com>".data
    ∧ build_cc ccChunksEx = "A <a@x.com>; b@y.com".data := by
  have h := c5_merge_dedup ccChunksEx
  exact ⟨h.2.2.1, h.2.2.2.1 "A <a@x.com>".data (by decide), by decide⟩

/-- C6: one shared rendering path with autoescape: rendering any template in
any context equals raw (non-escaping) rendering in the value-escaped context,
so every substituted value is HTML-escaped at its insertion point; the escape
maps `<`, `>`, `"`, `&` to entities, and this applies to subject-line
rendering too (concrete subject shown). -/
theorem c6_autoescape :
    (∀ (ctx : List (Str × Str)) (t : Str),
        renderChars ctx t = renderRaw (ctx.map (fun p => (p.1, escapeHTML p.2))) t)
    ∧ escapeHTML "<".data = "&lt;".data
    ∧ escapeHTML ">".data = "&gt;".data
    ∧ escapeHTML "\"".data = "&#34;".data
    ∧ escapeHTML "&".data = "&amp;".data
    ∧ renderChars (ctxOf "A<B&C>\"D".data "C100".data [] [] []) SUBJECT_ERD
        = some "ER&D Data Collection - C100 (A&lt;B&amp;C&gt;&#34;D)".data := by
  refine ⟨fun ctx t => renderA_escape_raw ctx t.length t, by decide, by decide,
    by decide, by decide, by decide⟩

/-- C7: a row whose (stripped) `client_name`, `case_code` or `to` is empty is
SKIPPED with reason "missing client/code/to", contributes no zip entries, and
the batch still records one status per row. -/
theorem c7_missing_required (tpls : TemplateSet) (today : Str) (gen : Gen)
    (rows : List Row) (j : Nat) (r : Row)
    (hj : rows[j]? = some r)
    (hmiss : strip r.client_name = [] ∨ strip r.case_code = [] ∨ strip r.to_ = []) :
    (processBatch tpls today gen rows).1[j]?
        = some (RowStatus.skipped "missing client/code/to".data)
    ∧ (processRow tpls today gen j r).2 = []
    ∧ (processBatch tpls today gen rows).1.length = rows.length := by
  have hrow : processRow tpls today gen j r
      = (.skipped "missing client/code/to".data, []) := by
    rw [processRow, if_pos hmiss]
  have hspec := processBatchAux_spec tpls today gen rows 0
  refine ⟨?_, by rw [hrow], ?_⟩
  · show (processBatchAux tpls today gen 0 rows).1[j]? = _
    rw [hspec]
    simp [List.getElem?_map, List.getElem?_enumFrom, hj, hrow]
  · show (processBatchAux tpls today gen 0 rows).1.length = rows.length
    rw [hspec]
    simp [List.length_map, List.enumFrom_length]

/-- C7 (witness): the missing-`to` row in a two-row batch. -/
theorem c7_witness :
    (processBatch tinyTpls [] genOK [rowNoTo, rowTiny]).1[0]?
        = some (RowStatus.skipped "missing client/code/to".data)
    ∧ (processRow tinyTpls [] genOK 0 rowNoTo).2 = []
    ∧ (processBatch tinyTpls [] genOK [rowNoTo, rowTiny]).1.length = 2 := by
  have h := c7_missing_required tinyTpls [] genOK [rowNoTo, rowTiny] 0 rowNoTo
    rfl (by decide)
  exact ⟨h.1, h.2.1, h.2.2⟩

/-- C8: per-row isolation of the generate loop.  The status log has one entry
per row; row `j`'s status and zip entries are a function of row `j` (and the
oracle at index `j`) alone, so one row's SKIPPED or FAILED never aborts the
batch or alters another row's result; invalid recipients yield SKIPPED for
that row only (with no entries), a failing subject render yields FAILED, and
a failing stage-1 Outlook call is caught as FAILED with the raised message. -/
theorem c8_row_isolation (tpls : TemplateSet) (today : Str) (gen : Gen)
    (rows : List Row) :
    ((processBatch tpls today gen rows).1.length = rows.length)
    ∧ (∀ j, (processBatch tpls today gen rows).1[j]?
          = (rows[j]?).map (fun r => (processRow tpls today gen j r).1))
    ∧ ((processBatch tpls today gen rows).2
          = ((List.enumFrom 0 rows).map
              (fun p => (processRow tpls today gen p.1 p.2).2)).flatten)
    ∧ (∀ (i : Nat) (r : Row) (w : Str),
        ¬(strip r.client_name = [] ∨ strip r.case_code = [] ∨ strip r.to_ = []) →
        renderChars (rowCtx today r) tpls.subject = some w →
        rowRecipientsOk r = false →
        processRow tpls today gen i r = (.skipped "invalid recipients".data, []))
    ∧ (∀ (i : Nat) (r : Row),
        ¬(strip r.client_name = [] ∨ strip r.case_code = [] ∨ strip r.to_ = []) →
        renderChars (rowCtx today r) tpls.subject = none →
        processRow tpls today gen i r = (.failed "template error".data, []))
    ∧ (∀ (i : Nat) (r : Row) (w b1 : Str) (e : Str),
        ¬(strip r.client_name = [] ∨ strip r.case_code = [] ∨ strip r.to_ = []) →
        renderChars (rowCtx today r) tpls.subject = some w →
        rowRecipientsOk r = true →
        renderChars (rowCtx today r) tpls.sebastian = some b1 →
        gen i 1 = .error e →
        processRow tpls today gen i r = (.failed e, [])) := by
  have hspec := processBatchAux_spec tpls today gen rows 0
  refine ⟨?_, ?_, ?_, ?_, ?_, ?_⟩
  · show (processBatchAux tpls today gen 0 rows).1.length = rows.length
    rw [hspec]
    simp [List.length_map, List.enumFrom_length]
  · intro j
    show (processBatchAux tpls today gen 0 rows).1[j]? = _
    rw [hspec]
    simp only [List.getElem?_map, List.getElem?_enumFrom]
    cases rows[j]? <;> simp
  · show (processBatchAux tpls today gen 0 rows).2 = _
    rw [hspec]
  · intro i r w hmiss hsubj hbad
    rw [processRow, if_neg hmiss]
    dsimp only
    rw [hsubj, hbad]
    rfl
  · intro i r hmiss hsubj
    rw [processRow, if_neg hmiss]
    dsimp only
    rw [hsubj]
  · intro i r w b1 e hmiss hsubj hvalid hb1 hgen
    rw [processRow, if_neg hmiss]
    dsimp only
    rw [hsubj, hvalid, hb1, hgen]
    rfl

/-- C8 (witness): in a two-row batch whose first row has an invalid recipient
the first row is SKIPPED with no entries while the second row's status is
exactly what it gets alone, and the log has both entries. -/
theorem c8_witness :
    (processBatch tinyTpls [] genOK [rowBadRecipient, rowTiny]).1.length = 2
    ∧ (processBatch tinyTpls [] genOK [rowBadRecipient, rowTiny]).1[1]?
        = some (processRow tinyTpls [] genOK 1 rowTiny).1
    ∧ processRow tinyTpls [] genOK 0 rowBadRecipient
        = (.skipped "invalid recipients".data, []) := by
  have h := c8_row_isolation tinyTpls [] genOK [rowBadRecipient, rowTiny]
  refine ⟨h.1, ?_, ?_⟩
  · rw [h.2.1 1]
    rfl
  · exact h.2.2.2.1 0 rowBadRecipient "s".data (by decide) (by decide) (by decide)

/-- C9: no rollback — when the Outlook call fails at stage 2 (resp. stage 3)
after the earlier stages succeeded, the row is FAILED with the raised message
and exactly the stage-1 entry (resp. the stage-1 and stage-2 entries) remain
in the archive for that row. -/
theorem c9_no_rollback (tpls : TemplateSet) (today : Str) (gen : Gen)
    (i : Nat) (r : Row) :
    (∀ (w b1r b2r : Str) (bb1 : Bytes) (e : Str),
      ¬(strip r.client_name = [] ∨ strip r.case_code = [] ∨ strip r.to_ = []) →
      renderChars (rowCtx today r) tpls.subject = some w →
      rowRecipientsOk r = true →
      renderChars (rowCtx today r) tpls.sebastian = some b1r →
      gen i 1 = .ok bb1 →
      renderChars (rowCtx today r) tpls.poc = some b2r →
      gen i 2 = .error e →
      processRow tpls today gen i r = (.failed e, [(stage1Path r, bb1)]))
    ∧ (∀ (w b1r b2r b3r : Str) (bb1 bb2 : Bytes) (e : Str),
      ¬(strip r.client_name = [] ∨ strip r.case_code = [] ∨ strip r.to_ = []) →
      renderChars (rowCtx today r) tpls.subject = some w →
      rowRecipientsOk r = true →
      renderChars (rowCtx today r) tpls.sebastian = some b1r →
      gen i 1 = .ok bb1 →
      renderChars (rowCtx today r) tpls.poc = some b2r →
      gen i 2 = .ok bb2 →
      renderChars (rowCtx today r) tpls.aseem = some b3r →
      gen i 3 = .error e →
      processRow tpls today gen i r
        = (.failed e, [(stage1Path r, bb1), (stage2Path r, bb2)])) := by
  constructor
  · intro w b1r b2r bb1 e hmiss hsubj hvalid hb1 hg1 hb2 hg2
    rw [processRow, if_neg hmiss]
    dsimp only
    rw [hsubj, hvalid, hb1, hg1, hb2, hg2]
    rfl
  · intro w b1r b2r b3r bb1 bb2 e hmiss hsubj hvalid hb1 hg1 hb2 hg2 hb3 hg3
    rw [processRow, if_neg hmiss]
    dsimp only
    rw [hsubj, hvalid, hb1, hg1, hb2, hg2, hb3, hg3]
    rfl

/-- C9 (witness): concrete stage-2 and stage-3 failures keep exactly the
earlier stages' entries. -/
theorem c9_witness :
    processRow tinyTpls [] genFail2 0 rowTiny
        = (.failed "boom".data, [(stage1Path rowTiny, [])])
    ∧ processRow tinyTpls [] genFail3 0 rowTiny
        = (.failed "late".data, [(stage1Path rowTiny, []), (stage2Path rowTiny, [])]) := by
  constructor
  · exact (c9_no_rollback tinyTpls [] genFail2 0 rowTiny).1 "s".data "b1".data
      "b2".data [] "boom".data (by decide) (by decide) (by decide) (by decide)
      rfl (by decide) rfl
  · exact (c9_no_rollback tinyTpls [] genFail3 0 rowTiny).2 "s".data "b1".data
      "b2".data "b3".data [] [] "late".data (by decide) (by decide) (by decide)
      (by decide) rfl (by decide) rfl (by decide) rfl

/-- C10: `build_cc` is idempotent on its own output: re-splitting the joined,
de-duplicated string recovers exactly the kept tokens, whose keys are already
pairwise distinct. -/
theorem c10_build_cc_idempotent (chunks : List Str) :
    build_cc [build_cc chunks] = build_cc chunks := by
  have htok : ∀ t ∈ buildCCList chunks,
      strip t = t ∧ t ≠ [] ∧ ';' ∉ t ∧ ',' ∉ t := by
    intro t ht
    have hmem : t ∈ chunks.flatMap _split_recipients :=
      (dedupLowerAux_sublist [] _).subset ht
    obtain ⟨s, _, hts⟩ := List.mem_flatMap.mp hmem
    exact split_recipients_token hts
  have hsplit : _split_recipients (build_cc chunks) = buildCCList chunks :=
    split_recipients_joinWith htok
  have hlist : buildCCList [build_cc chunks] = buildCCList chunks := by
    rw [buildCCList,
      show [build_cc chunks].flatMap _split_recipients
          = _split_recipients (build_cc chunks) from by simp,
      hsplit]
    exact dedupLowerAux_eq_self [] _ (by simp) (dedupLowerAux_keys_nodup [] _)
  rw [build_cc, hlist]
  rfl

end DCGen
